import Mathlib

/-!
# cast4: one ray against four triangles (vec4intersection.c)

A shallow embedding of `cast4` and of the SPU vector operations it is written with.
Floating-point lanes are taken over exact rational arithmetic; comparison masks are
32-bit words (`0` or `0xFFFFFFFF`) held as natural numbers.  A read of an
indeterminate local or of an element outside the four-triangle array has no defined
result: `cast4` then yields `none`.  `cast4_runOn` is the same function with the word
such a read of `hitIndex` yields made a parameter.
-/

namespace Vec4Intersection

/-! ## Data model -/

/-- Vec: scalar 3-component vector (x, y, z). -/
structure Vec where
  x : ℚ
  y : ℚ
  z : ℚ
deriving DecidableEq

/-- A `vector float` register: four lanes, element 0 leftmost. -/
abbrev VecF := Fin 4 → ℚ

/-- A `vector unsigned int` register: four 32-bit words, element 0 leftmost. -/
abbrev VecU := Fin 4 → Nat

/-- A `vector unsigned char` register: sixteen bytes, element 0 leftmost. -/
abbrev VecB := Fin 16 → Nat

/-- Vec_4: four 3-component vectors, one per lane, stored as all x, all y, all z. -/
structure Vec_4 where
  x : VecF
  y : VecF
  z : VecF

/-- Triangle: one vertex `p1` and the two edge vectors `e1 = p2 - p1`, `e2 = p3 - p1`. -/
structure Triangle where
  p1 : Vec
  e1 : Vec
  e2 : Vec
deriving DecidableEq

/-- Tri_4: the batch of four triangles in structure-of-arrays layout. -/
structure Tri_4 where
  e1 : Vec_4
  e2 : Vec_4
  p1 : Vec_4

/-- Ray: origin, direction (the field is called `ray` in the source), best hit distance
`t`, best intersection point, hit colour and the back-reference `itri`.  The
back-reference `&_tri[i]` is held as the index `i` into the triangle array; `none` is
any pointer that is not into that array. -/
structure Ray where
  origin : Vec
  ray : Vec
  t : ℚ
  intersection : Vec
  color : Vec
  itri : Option Nat
deriving DecidableEq

/-- What one call of `cast4` leaves behind: the returned status, the ray as it stands
after the call, and whether line 136 wrote its diagnostic
("Said there's a hit but no hit"). -/
structure Cast4Result where
  status : Int
  ray : Ray
  printed : Bool
deriving DecidableEq

/-! ## Vector math library -/

/-- Modelled from the spec: `cross1_4` is not in the source file; the cross product of
one vector with each of the four lane vectors (spec §4.1 step 1,
`p = cross(ray.direction, e2)`). -/
def cross1_4 (a : Vec) (b : Vec_4) : Vec_4 :=
  { x := fun i => a.y * b.z i - a.z * b.y i
    y := fun i => a.z * b.x i - a.x * b.z i
    z := fun i => a.x * b.y i - a.y * b.x i }

/-- Modelled from the spec: `cross4` is not in the source file; the lane-wise cross
product of two 4-wide vectors (spec §4.1 step 5, `q = cross(s, e1)`). -/
def cross4 (a b : Vec_4) : Vec_4 :=
  { x := fun i => a.y i * b.z i - a.z i * b.y i
    y := fun i => a.z i * b.x i - a.x i * b.z i
    z := fun i => a.x i * b.y i - a.y i * b.x i }

/-- Modelled from the spec: `dot4` is not in the source file; the lane-wise dot product
of two 4-wide vectors (spec §4.1 step 1, `a = dot(e1, p)` per lane). -/
def dot4 (a b : Vec_4) : VecF :=
  fun i => a.x i * b.x i + a.y i * b.y i + a.z i * b.z i

/-- Modelled from the spec: `sub4` is not in the source file; lane-wise subtraction
(spec §4.1 step 4, `s = ray.origin - p1`). -/
def sub4 (a b : Vec_4) : Vec_4 :=
  { x := fun i => a.x i - b.x i
    y := fun i => a.y i - b.y i
    z := fun i => a.z i - b.z i }

/-- Modelled from the spec: `vec1to4` is not in the source file; broadcast of one vector
to all four lanes (spec §2, "broadcast"). -/
def vec1to4 (a : Vec) : Vec_4 :=
  { x := fun _ => a.x
    y := fun _ => a.y
    z := fun _ => a.z }

/-- Modelled from the spec: `recipf4` is not in the source file; the lane-wise
reciprocal (spec §4.1 step 4, `f = 1/a`), exact here. -/
def recipf4 (a : VecF) : VecF :=
  fun i => 1 / a i

/-- Modelled from the spec: `scaleNewVec` is not in the source file; a fresh vector
holding `v` scaled by `k` (spec §4.1 step 10, the terms `u·e1` and `v·e2`). -/
def scaleNewVec (v : Vec) (k : ℚ) : Vec :=
  { x := v.x * k, y := v.y * k, z := v.z * k }

/-- Modelled from the spec: `add` is not in the source file; the component-wise sum
written to the third argument, returned here. -/
def add (a b : Vec) : Vec :=
  { x := a.x + b.x, y := a.y + b.y, z := a.z + b.z }

/-- Modelled from the spec: `addInPlace` is not in the source file; adds the second
vector to the first in place, the updated first vector is returned here. -/
def addInPlace (pos v : Vec) : Vec :=
  { x := pos.x + v.x, y := pos.y + v.y, z := pos.z + v.z }

/-! ## SPU intrinsics -/

/-- The all-ones word a true comparison leaves in a lane; also `(unsigned) -1`. -/
def allOnes : Nat := 4294967295

/-- Conversion of a C `int` expression to `unsigned int`. -/
def toUInt32 (z : Int) : Nat := (z % 4294967296).toNat

/-- spu_splats: a vector filled with the argument. -/
def spu_splats {α : Type} (c : α) : Fin 4 → α := fun _ => c

/-- spu_cmpeq on floats: all ones in the lanes where the operands are equal. -/
def spu_cmpeq (a b : VecF) : VecU := fun i => if a i = b i then allOnes else 0

/-- spu_cmpgt on floats: all ones in the lanes where `a > b`. -/
def spu_cmpgt (a b : VecF) : VecU := fun i => if a i > b i then allOnes else 0

/-- spu_or: bitwise or, word by word. -/
def spu_or (a b : VecU) : VecU := fun i => a i ||| b i

/-- spu_sel: bit-wise select, `a` where the mask bit is 0 and `b` where it is 1.  Every
mask `cast4` passes is a comparison result, all zeros or all ones in each lane, so the
select is taken lane by lane. -/
def spu_sel (a b : VecF) (m : VecU) : VecF := fun i => if m i = 0 then a i else b i

/-- spu_mul: lane-wise product. -/
def spu_mul (a b : VecF) : VecF := fun i => a i * b i

/-- spu_add: lane-wise sum. -/
def spu_add (a b : VecF) : VecF := fun i => a i + b i

/-- spu_gather: the least significant bit of each word, element 0 first, packed into
the low four bits of element 0 of the result. -/
def spu_gather (m : VecU) : VecU :=
  ![(m 0 % 2) * 8 + (m 1 % 2) * 4 + (m 2 % 2) * 2 + m 3 % 2, 0, 0, 0]

/-- spu_extract on a four-element vector; only the two low bits of the index are used. -/
def spu_extract {α : Type} (v : Fin 4 → α) (i : Nat) : α :=
  v ⟨i % 4, Nat.mod_lt i (by decide)⟩

/-- spu_extract on a sixteen-byte vector; only the four low bits of the index are used. -/
def spu_extract_b (v : VecB) (i : Nat) : Nat :=
  v ⟨i % 16, Nat.mod_lt i (by decide)⟩

/-- The cast `(vector unsigned char)` of a word vector: the same sixteen bytes, each
word most significant byte first (the SPU is big-endian). -/
def castToBytes (v : VecU) : VecB :=
  fun k => (v ⟨k.val / 4, by omega⟩ / 256 ^ (3 - k.val % 4)) % 256

/-- Number of one bits in a byte. -/
def popcount8 (b : Nat) : Nat :=
  b % 2 + b / 2 % 2 + b / 4 % 2 + b / 8 % 2 + b / 16 % 2 + b / 32 % 2 + b / 64 % 2
    + b / 128 % 2

/-- spu_cntb: for each byte, the number of one bits in it. -/
def spu_cntb (v : VecB) : VecB := fun k => popcount8 (v k)

/-- Number of leading zero bits of a 32-bit word. -/
def cntlz32 (w : Nat) : Nat := ((List.range 32).filter (fun k => decide (w < 2 ^ k))).length

/-- spu_cntlz: for each word, the number of leading zero bits. -/
def spu_cntlz (v : VecU) : VecU := fun i => cntlz32 (v i)

/-! ## cast4, lines 43-96: the four lane tests -/

/-- Line 43: `zeroes = spu_splats(0.0f)`. -/
def zeroes : VecF := spu_splats 0

/-- Line 69: `ones = spu_splats(1.0f)`. -/
def ones : VecF := spu_splats 1

/-- Line 70: `not_zeroes = {4321.0f,4321.0f,4321.0f,4321.0f}`. -/
def not_zeroes : VecF := ![4321, 4321, 4321, 4321]

/-- Line 48: `p = cross1_4(r->ray,tri.e2)`. -/
def cast4_p (r : Ray) (tri : Tri_4) : Vec_4 := cross1_4 r.ray tri.e2

/-- Line 49: `a = dot4(tri.e1,p)`, the determinant before the substitution of line 71. -/
def cast4_det (r : Ray) (tri : Tri_4) : VecF := dot4 tri.e1 (cast4_p r tri)

/-- Line 51: `fail = spu_cmpeq(a,zeroes)`. -/
def cast4_failA (r : Ray) (tri : Tri_4) : VecU := spu_cmpeq (cast4_det r tri) zeroes

/-- Line 71: `a = spu_sel(a,not_zeroes,fail)`. -/
def cast4_a (r : Ray) (tri : Tri_4) : VecF :=
  spu_sel (cast4_det r tri) not_zeroes (cast4_failA r tri)

/-- Line 74: `f = recipf4(a)`. -/
def cast4_f (r : Ray) (tri : Tri_4) : VecF := recipf4 (cast4_a r tri)

/-- Line 76: `s = sub4(vec1to4(r->origin),tri.p1)`. -/
def cast4_s (r : Ray) (tri : Tri_4) : Vec_4 := sub4 (vec1to4 r.origin) tri.p1

/-- Line 77: `u = spu_mul(f,dot4(s,p))`. -/
def cast4_u (r : Ray) (tri : Tri_4) : VecF :=
  spu_mul (cast4_f r tri) (dot4 (cast4_s r tri) (cast4_p r tri))

/-- Lines 81-82: `d = spu_or(spu_cmpgt(u,ones),spu_cmpgt(zeroes,u)); fail = spu_or(fail,d)`. -/
def cast4_failB (r : Ray) (tri : Tri_4) : VecU :=
  spu_or (cast4_failA r tri)
    (spu_or (spu_cmpgt (cast4_u r tri) ones) (spu_cmpgt zeroes (cast4_u r tri)))

/-- Line 85: `q = cross4(s,tri.e1)`. -/
def cast4_q (r : Ray) (tri : Tri_4) : Vec_4 := cross4 (cast4_s r tri) tri.e1

/-- Line 86: `v = spu_mul(f,dot4(vec1to4(r->ray),q))`. -/
def cast4_v (r : Ray) (tri : Tri_4) : VecF :=
  spu_mul (cast4_f r tri) (dot4 (vec1to4 r.ray) (cast4_q r tri))

/-- Lines 88-89: `d = spu_or(spu_cmpgt(zeroes,v),spu_cmpgt(spu_add(u,v),ones));
fail = spu_or(fail,d)`. -/
def cast4_failC (r : Ray) (tri : Tri_4) : VecU :=
  spu_or (cast4_failB r tri)
    (spu_or (spu_cmpgt zeroes (cast4_v r tri))
      (spu_cmpgt (spu_add (cast4_u r tri) (cast4_v r tri)) ones))

/-- Line 93: `t = spu_mul(f,dot4(tri.e2,q))`. -/
def cast4_t (r : Ray) (tri : Tri_4) : VecF :=
  spu_mul (cast4_f r tri) (dot4 tri.e2 (cast4_q r tri))

/-- Lines 95-96: `d = spu_cmpgt(zeroes,t); fail = spu_or(fail,d)`, the final mask. -/
def cast4_fail (r : Ray) (tri : Tri_4) : VecU :=
  spu_or (cast4_failC r tri) (spu_cmpgt zeroes (cast4_t r tri))

/-! ## cast4, lines 98-133: lane selection -/

/-- Line 103: `valid = 4-spu_extract(spu_cntb((vector unsigned char)spu_splats(gather)),0)`.
Element 0 of the byte vector is the most significant byte of the first word; the four
gathered bits lie in the least significant byte of each word, element 3 of the byte
vector. -/
def cast4_valid (gather : Nat) : Nat :=
  toUInt32 (4 - ((spu_extract_b (spu_cntb (castToBytes (spu_splats gather))) 0 : Nat) : Int))

/-- Lines 113-124: one turn of the `while(tempIndex<4)` loop on the pair
`(hitT, hitIndex)`; `hitIndex` is `none` while it has never been assigned. -/
def cast4_scanStep (fail : VecU) (t : VecF) (st : ℚ × Option Nat) (tempIndex : Nat) :
    ℚ × Option Nat :=
  if spu_extract fail tempIndex = allOnes then st
  else if spu_extract t tempIndex < st.1 then (spu_extract t tempIndex, some tempIndex)
  else st

/-- Lines 107-125: the loop run for `tempIndex = 0, 1, 2, 3` from `hitT = 3487534.0f`
and `hitIndex` unassigned. -/
def cast4_scan (fail : VecU) (t : VecF) : ℚ × Option Nat :=
  [0, 1, 2, 3].foldl (cast4_scanStep fail t) (3487534, none)

/-- Lines 103-133: the pair `(hitT, hitIndex)` after the selection, by the linear scan
when `valid != 3` and by `31 - cntlz(gather)` otherwise. -/
def cast4_select (fail : VecU) (t : VecF) (gather : Nat) : ℚ × Option Nat :=
  if cast4_valid gather ≠ 3 then cast4_scan fail t
  else
    let hitIndex := toUInt32 (31 - ((spu_extract (spu_cntlz (spu_splats gather)) 0 : Nat) : Int))
    (spu_extract t hitIndex, some hitIndex)

/-- Lines 140-151: the ray after an accepted hit. -/
def cast4_accept (r : Ray) (hit : Triangle) (u v : VecF) (hitIndex : Nat) (hitT : ℚ) : Ray :=
  let temp1 := scaleNewVec hit.e1 (spu_extract u hitIndex)
  let temp2 := scaleNewVec hit.e2 (spu_extract v hitIndex)
  let pos := addInPlace (add temp1 temp2) hit.p1
  { r with
    intersection := { x := pos.x, y := pos.y, z := pos.z }
    itri := some hitIndex
    color := { x := 3 / 10, y := 7 / 10, z := 1 }
    t := hitT }

/-- The function `cast4` (lines 33-157).  `_tri` is the array of the four Triangle
records of the batch.  The result is `none` when `hitIndex` is read while still
unassigned or when `_tri[hitIndex]` lies outside the four records. -/
def cast4 (_tri : Fin 4 → Triangle) (r : Ray) (tri : Tri_4) : Option Cast4Result :=
  if spu_extract (spu_gather (cast4_failA r tri)) 0 = 15 then some ⟨-1, r, false⟩
  else if spu_extract (spu_gather (cast4_failB r tri)) 0 = 15 then some ⟨-2, r, false⟩
  else if spu_extract (spu_gather (cast4_failC r tri)) 0 = 15 then some ⟨-3, r, false⟩
  else
    let gather := spu_extract (spu_gather (cast4_fail r tri)) 0
    if gather ≠ 15 then
      match cast4_select (cast4_fail r tri) (cast4_t r tri) gather with
      | (_, none) => none
      | (hitT, some hitIndex) =>
        if h : hitIndex < 4 then
          let hit := _tri ⟨hitIndex, h⟩
          let printed := decide (spu_extract (cast4_fail r tri) hitIndex = allOnes)
          if |hitT| > |r.t| then some ⟨2, r, printed⟩
          else some ⟨1, cast4_accept r hit (cast4_u r tri) (cast4_v r tri) hitIndex hitT, printed⟩
        else none
    else some ⟨-4, r, false⟩

/-! ## Lane predicates read off the four comparisons -/

/-- Lane `i` fails the determinant test of line 51: `a == 0`. -/
def FailsDet (r : Ray) (tri : Tri_4) (i : Fin 4) : Prop := cast4_det r tri i = 0

/-- Lane `i` fails the `u` test of line 81: `u > 1` or `0 > u`. -/
def FailsU (r : Ray) (tri : Tri_4) (i : Fin 4) : Prop :=
  cast4_u r tri i > 1 ∨ 0 > cast4_u r tri i

/-- Lane `i` fails the `v` test of line 88: `0 > v` or `u + v > 1`. -/
def FailsV (r : Ray) (tri : Tri_4) (i : Fin 4) : Prop :=
  0 > cast4_v r tri i ∨ cast4_u r tri i + cast4_v r tri i > 1

/-- Lane `i` fails the `t` test of line 95: `0 > t`. -/
def FailsT (r : Ray) (tri : Tri_4) (i : Fin 4) : Prop := 0 > cast4_t r tri i

/-- Lane `i` has failure bit zero in the final mask of line 96. -/
def Survives (r : Ray) (tri : Tri_4) (i : Fin 4) : Prop := cast4_fail r tri i = 0

/-- The mask with all ones exactly in the lanes where `P` holds. -/
def maskOf (P : Fin 4 → Prop) [DecidablePred P] : VecU := fun i => if P i then allOnes else 0

instance (r : Ray) (tri : Tri_4) : DecidablePred (FailsDet r tri) :=
  fun i => inferInstanceAs (Decidable (cast4_det r tri i = 0))

instance (r : Ray) (tri : Tri_4) : DecidablePred (FailsU r tri) :=
  fun i => inferInstanceAs (Decidable (cast4_u r tri i > 1 ∨ 0 > cast4_u r tri i))

instance (r : Ray) (tri : Tri_4) : DecidablePred (FailsV r tri) :=
  fun i => inferInstanceAs
    (Decidable (0 > cast4_v r tri i ∨ cast4_u r tri i + cast4_v r tri i > 1))

instance (r : Ray) (tri : Tri_4) : DecidablePred (FailsT r tri) :=
  fun i => inferInstanceAs (Decidable (0 > cast4_t r tri i))

instance (r : Ray) (tri : Tri_4) : DecidablePred (Survives r tri) :=
  fun i => inferInstanceAs (Decidable (cast4_fail r tri i = 0))

/-- The lane `spu_extract` reads for the index `k`. -/
def lane (k : Nat) : Fin 4 := ⟨k % 4, Nat.mod_lt k (by decide)⟩

/-- Invariant of the loop of lines 112-125 once the indices in `S` have been visited:
either `hitIndex` is still unassigned, `hitT` is still 3487534 and no visited lane with
failure bit clear lies below it, or `hitIndex` is a visited lane with failure bit clear
whose `t` is `hitT`, below 3487534 and minimal among the visited lanes with failure bit
clear. -/
def ScanInv (fail : VecU) (t : VecF) (S : List Nat) (st : ℚ × Option Nat) : Prop :=
  (st = (3487534, none) ∧ ∀ k ∈ S, fail (lane k) ≠ allOnes → 3487534 ≤ t (lane k)) ∨
  (∃ w ∈ S, st = (t (lane w), some w) ∧ fail (lane w) ≠ allOnes ∧ t (lane w) < 3487534 ∧
    ∀ k ∈ S, fail (lane k) ≠ allOnes → t (lane w) ≤ t (lane k))

/-! ## Batches, and the scenario of the specification -/

/-- The Triangle held in lane `i` of the batch (`extractTriangle(tri,hitIndex)` in the
comment of line 130). -/
def extractTriangle (tri : Tri_4) (i : Fin 4) : Triangle :=
  { p1 := { x := tri.p1.x i, y := tri.p1.y i, z := tri.p1.z i }
    e1 := { x := tri.e1.x i, y := tri.e1.y i, z := tri.e1.z i }
    e2 := { x := tri.e2.x i, y := tri.e2.y i, z := tri.e2.z i } }

/-- The batch whose lane `i` holds the data of element `i` of a triangle array. -/
def packTri_4 (T : Fin 4 → Triangle) : Tri_4 :=
  { e1 := { x := fun i => (T i).e1.x, y := fun i => (T i).e1.y, z := fun i => (T i).e1.z }
    e2 := { x := fun i => (T i).e2.x, y := fun i => (T i).e2.y, z := fun i => (T i).e2.z }
    p1 := { x := fun i => (T i).p1.x, y := fun i => (T i).p1.y, z := fun i => (T i).p1.z } }

/-- Lane `i` of the batch holds a zero-area triangle: `e1 × e2 = 0`. -/
def ZeroArea (tri : Tri_4) (i : Fin 4) : Prop :=
  (cross4 tri.e1 tri.e2).x i = 0 ∧ (cross4 tri.e1 tri.e2).y i = 0 ∧
    (cross4 tri.e1 tri.e2).z i = 0

/-- The triangle of the scenario: vertices (-1,-1,0), (1,-1,0), (0,1,0), so
`p1 = (-1,-1,0)`, `e1 = (2,0,0)`, `e2 = (1,2,0)`. -/
def scenarioTriangle : Triangle :=
  { p1 := { x := -1, y := -1, z := 0 }
    e1 := { x := 2, y := 0, z := 0 }
    e2 := { x := 1, y := 2, z := 0 } }

/-- A degenerate triangle: all three vertices at the origin. -/
def pointTriangle : Triangle :=
  { p1 := { x := 0, y := 0, z := 0 }
    e1 := { x := 0, y := 0, z := 0 }
    e2 := { x := 0, y := 0, z := 0 } }

/-- The triangle array of the scenario: the triangle in element 0, degenerate triangles
in elements 1 to 3. -/
def scenarioTris : Fin 4 → Triangle :=
  ![scenarioTriangle, pointTriangle, pointTriangle, pointTriangle]

/-- A ray along +z from `(0,0,-d)` with current best distance `best` and no hit yet. -/
def axisRay (d best : ℚ) : Ray :=
  { origin := { x := 0, y := 0, z := -d }
    ray := { x := 0, y := 0, z := 1 }
    t := best
    intersection := { x := 0, y := 0, z := 0 }
    color := { x := 0, y := 0, z := 0 }
    itri := none }

/-- The scenario's batch: lane `i` holds element `i` of `scenarioTris`. -/
def scenarioBatch : Tri_4 := packTri_4 scenarioTris

/-- The ray `axisRay d best` after a hit on element 0 of `scenarioTris` at distance `d`
has been accepted. -/
def axisRayHit (d best : ℚ) : Ray :=
  { axisRay d best with
    intersection := { x := 0, y := 0, z := 0 }
    itri := some 0
    color := { x := 3 / 10, y := 7 / 10, z := 1 }
    t := d }

/-- The triangle in lane `i` of the batch is geometrically intersected by the ray: some
point `origin + t*direction` with `t ≥ 0` is a point `p1 + u*e1 + v*e2` of the triangle,
`u ≥ 0`, `v ≥ 0`, `u + v ≤ 1`. -/
def GeomHit (r : Ray) (tri : Tri_4) (i : Fin 4) : Prop :=
  ∃ t u v : ℚ, 0 ≤ t ∧ 0 ≤ u ∧ 0 ≤ v ∧ u + v ≤ 1 ∧
    r.origin.x + t * r.ray.x = tri.p1.x i + u * tri.e1.x i + v * tri.e2.x i ∧
    r.origin.y + t * r.ray.y = tri.p1.y i + u * tri.e1.y i + v * tri.e2.y i ∧
    r.origin.z + t * r.ray.z = tri.p1.z i + u * tri.e1.z i + v * tri.e2.z i

/-- `T` is the nearest valid hit distance of the batch for the ray: some lane with failure
bit zero has hit distance `T` and no lane with failure bit zero has a smaller one. -/
def IsNearestHit (r : Ray) (tri : Tri_4) (T : ℚ) : Prop :=
  (∃ w, Survives r tri w ∧ cast4_t r tri w = T) ∧ ∀ i, Survives r tri i → T ≤ cast4_t r tri i

/-- The call `cast4(_tri, r, tri)` returns the status `s`. -/
def Returns (_tri : Fin 4 → Triangle) (r : Ray) (tri : Tri_4) (s : Int) : Prop :=
  ∃ res, cast4 _tri r tri = some res ∧ res.status = s

/-! ## The scalar oracle of the specification -/

/-- Modelled from the spec: the scalar `cross` of the vector math library is not in the
source file; the cross product of two vectors. -/
def cross (a b : Vec) : Vec :=
  { x := a.y * b.z - a.z * b.y
    y := a.z * b.x - a.x * b.z
    z := a.x * b.y - a.y * b.x }

/-- Modelled from the spec: the scalar `dot` of the vector math library is not in the
source file; the dot product of two vectors. -/
def dot (a b : Vec) : ℚ := a.x * b.x + a.y * b.y + a.z * b.z

/-- Modelled from the spec: the scalar `sub` of the vector math library is not in the
source file (it is named in the comment of line 76); the difference of two vectors. -/
def sub (a b : Vec) : Vec := { x := a.x - b.x, y := a.y - b.y, z := a.z - b.z }

/-- The scalar single-triangle Möller-Trumbore test the specification compares `cast4`
with (§8 P2, §9): steps 1-6 of §4.1 on one triangle, with the scalar comparisons kept in
the comments of lines 60-62, 79 and 91.  On a hit it gives `(t, u, v)`, on a miss
`none`. -/
def scalarMollerTrumbore (r : Ray) (T : Triangle) : Option (ℚ × ℚ × ℚ) :=
  let p := cross r.ray T.e2
  let a := dot T.e1 p
  if a = 0 then none
  else
    let f := 1 / a
    let s := sub r.origin T.p1
    let u := f * dot s p
    if u < 0 ∨ u > 1 then none
    else
      let q := cross s T.e1
      let v := f * dot r.ray q
      if v < 0 ∨ u + v > 1 then none
      else
        let t := f * dot T.e2 q
        if t < 0 then none else some (t, u, v)

/-! ## The branch of line 108, and cast4 without its early returns -/

/-- The call reaches the selection (line 100, not all four lanes failed) and takes the
`else` branch of line 108, the bit-counting selection of lines 129-131: `valid == 3`. -/
def TakesBitCountBranch (r : Ray) (tri : Tri_4) : Prop :=
  spu_extract (spu_gather (cast4_fail r tri)) 0 ≠ 15 ∧
    cast4_valid (spu_extract (spu_gather (cast4_fail r tri)) 0) = 3

/-- The call reaches the selection and takes the `then` branch of line 108, the linear
scan of lines 110-126: `valid != 3`. -/
def TakesLinearScan (r : Ray) (tri : Tri_4) : Prop :=
  spu_extract (spu_gather (cast4_fail r tri)) 0 ≠ 15 ∧
    cast4_valid (spu_extract (spu_gather (cast4_fail r tri)) 0) ≠ 3

/-- The function `cast4` with the three early returns removed (line 56-59 `return -1`,
line 83 `return -2`, line 90 `return -3`); every other line is as in `cast4`, so only the
test of line 100 on the final mask remains. -/
def cast4_noEarlyExit (_tri : Fin 4 → Triangle) (r : Ray) (tri : Tri_4) :
    Option Cast4Result :=
  let gather := spu_extract (spu_gather (cast4_fail r tri)) 0
  if gather ≠ 15 then
    match cast4_select (cast4_fail r tri) (cast4_t r tri) gather with
    | (_, none) => none
    | (hitT, some hitIndex) =>
      if h : hitIndex < 4 then
        let hit := _tri ⟨hitIndex, h⟩
        let printed := decide (spu_extract (cast4_fail r tri) hitIndex = allOnes)
        if |hitT| > |r.t| then some ⟨2, r, printed⟩
        else some ⟨1, cast4_accept r hit (cast4_u r tri) (cast4_v r tri) hitIndex hitT, printed⟩
      else none
  else some ⟨-4, r, false⟩

/-- The result of `cast4` with the status of an early return, -1, -2 or -3, replaced by
the status -4 of the last return; ray and diagnostic as they are. -/
def lateStatus (res : Cast4Result) : Cast4Result :=
  { res with
    status := if res.status = -1 ∨ res.status = -2 ∨ res.status = -3 then -4 else res.status }

/-- A triangle array of four degenerate triangles. -/
def pointTris : Fin 4 → Triangle := fun _ => pointTriangle

/-- The batch holding `pointTris`. -/
def pointBatch : Tri_4 := packTri_4 pointTris

/-- A ray along +z from `(ox, oy, oz)` with current best distance `best` and no hit yet. -/
def planeRay (ox oy oz best : ℚ) : Ray :=
  { origin := { x := ox, y := oy, z := oz }
    ray := { x := 0, y := 0, z := 1 }
    t := best
    intersection := { x := 0, y := 0, z := 0 }
    color := { x := 0, y := 0, z := 0 }
    itri := none }

/-! ## The bit-counting arm, and cast4 run on past an unassigned hitIndex -/

/-- Lines 129-131, the `else` arm of line 108 on its own:
`hitIndex = 31-spu_extract(spu_cntlz(spu_splats(gather)),0)` and
`hitT = spu_extract(t,hitIndex)`. -/
def cast4_bitCount (t : VecF) (gather : Nat) : ℚ × Option Nat :=
  let hitIndex := toUInt32 (31 - ((spu_extract (spu_cntlz (spu_splats gather)) 0 : Nat) : Int))
  (spu_extract t hitIndex, some hitIndex)

/-- The function `cast4` (lines 33-157) as it runs on when the read of a never assigned
`hitIndex` at line 126 yields the word `g` its storage happens to hold, `hitT` being still
3487534.  Every line is as in `cast4`; the result is `none` only when `_tri[hitIndex]`
lies outside the four records. -/
def cast4_runOn (g : Nat) (_tri : Fin 4 → Triangle) (r : Ray) (tri : Tri_4) :
    Option Cast4Result :=
  if spu_extract (spu_gather (cast4_failA r tri)) 0 = 15 then some ⟨-1, r, false⟩
  else if spu_extract (spu_gather (cast4_failB r tri)) 0 = 15 then some ⟨-2, r, false⟩
  else if spu_extract (spu_gather (cast4_failC r tri)) 0 = 15 then some ⟨-3, r, false⟩
  else
    let gather := spu_extract (spu_gather (cast4_fail r tri)) 0
    if gather ≠ 15 then
      let sel := cast4_select (cast4_fail r tri) (cast4_t r tri) gather
      let hitT := sel.1
      let hitIndex := sel.2.getD g
      if h : hitIndex < 4 then
        let hit := _tri ⟨hitIndex, h⟩
        let printed := decide (spu_extract (cast4_fail r tri) hitIndex = allOnes)
        if |hitT| > |r.t| then some ⟨2, r, printed⟩
        else some ⟨1, cast4_accept r hit (cast4_u r tri) (cast4_v r tri) hitIndex hitT, printed⟩
      else none
    else some ⟨-4, r, false⟩

/-! ## Masks and the gathered word -/

theorem maskOf_or (P Q : Fin 4 → Prop) [DecidablePred P] [DecidablePred Q] :
    spu_or (maskOf P) (maskOf Q) = maskOf (fun i => P i ∨ Q i) := by
  funext i
  by_cases hp : P i <;> by_cases hq : Q i <;> simp [spu_or, maskOf, hp, hq]

theorem gather_maskOf (P : Fin 4 → Prop) [DecidablePred P] :
    spu_extract (spu_gather (maskOf P)) 0 = 15 ↔ ∀ i, P i := by
  have key : (∀ i, P i) ↔ P 0 ∧ P 1 ∧ P 2 ∧ P 3 := by
    constructor
    · intro h
      exact ⟨h 0, h 1, h 2, h 3⟩
    · rintro ⟨a, b, c, d⟩ i
      fin_cases i <;> assumption
  rw [key]
  simp only [spu_extract, spu_gather, maskOf, allOnes]
  by_cases h0 : P 0 <;> by_cases h1 : P 1 <;> by_cases h2 : P 2 <;> by_cases h3 : P 3 <;>
    simp_all

theorem failA_eq (r : Ray) (tri : Tri_4) : cast4_failA r tri = maskOf (FailsDet r tri) := by
  funext i
  simp [cast4_failA, spu_cmpeq, maskOf, FailsDet, zeroes, spu_splats]

theorem failB_eq (r : Ray) (tri : Tri_4) :
    cast4_failB r tri = maskOf (fun i => FailsDet r tri i ∨ FailsU r tri i) := by
  rw [← maskOf_or, ← failA_eq]
  funext i
  by_cases h1 : cast4_u r tri i > 1 <;> by_cases h2 : 0 > cast4_u r tri i <;>
    simp [cast4_failB, spu_or, spu_cmpgt, maskOf, FailsU, zeroes, ones, spu_splats, h1, h2]

theorem failC_eq (r : Ray) (tri : Tri_4) :
    cast4_failC r tri
      = maskOf (fun i => (FailsDet r tri i ∨ FailsU r tri i) ∨ FailsV r tri i) := by
  rw [← maskOf_or, ← failB_eq]
  funext i
  by_cases h1 : 0 > cast4_v r tri i <;>
    by_cases h2 : cast4_u r tri i + cast4_v r tri i > 1 <;>
    simp [cast4_failC, spu_or, spu_cmpgt, spu_add, maskOf, FailsV, zeroes, ones, spu_splats,
      h1, h2]

theorem fail_eq (r : Ray) (tri : Tri_4) :
    cast4_fail r tri
      = maskOf (fun i =>
          ((FailsDet r tri i ∨ FailsU r tri i) ∨ FailsV r tri i) ∨ FailsT r tri i) := by
  rw [← maskOf_or, ← failC_eq]
  funext i
  simp [cast4_fail, spu_or, spu_cmpgt, maskOf, FailsT, zeroes, spu_splats]

theorem survives_iff (r : Ray) (tri : Tri_4) (i : Fin 4) :
    Survives r tri i ↔
      ¬ FailsDet r tri i ∧ ¬ FailsU r tri i ∧ ¬ FailsV r tri i ∧ ¬ FailsT r tri i := by
  unfold Survives
  rw [fail_eq]
  simp only [maskOf, allOnes]
  constructor
  · intro h
    by_contra hc
    rw [if_pos (by tauto)] at h
    exact absurd h (by decide)
  · intro h
    rw [if_neg (by tauto)]

theorem fail_ne_allOnes_iff (r : Ray) (tri : Tri_4) (i : Fin 4) :
    cast4_fail r tri i ≠ allOnes ↔ Survives r tri i := by
  unfold Survives
  rw [fail_eq]
  simp only [maskOf]
  split_ifs <;> simp [allOnes]

theorem gather_fail_ne_15 (r : Ray) (tri : Tri_4) :
    spu_extract (spu_gather (cast4_fail r tri)) 0 ≠ 15 ↔ ∃ i, Survives r tri i := by
  rw [Ne, fail_eq, gather_maskOf, not_forall]
  refine exists_congr (fun i => ?_)
  rw [survives_iff]
  tauto

theorem gather_lt_16 (m : VecU) : spu_extract (spu_gather m) 0 < 16 := by
  simp only [spu_extract, spu_gather]
  have h0 := Nat.mod_lt (m 0) (by decide : 0 < 2)
  have h1 := Nat.mod_lt (m 1) (by decide : 0 < 2)
  have h2 := Nat.mod_lt (m 2) (by decide : 0 < 2)
  have h3 := Nat.mod_lt (m 3) (by decide : 0 < 2)
  simp
  omega

theorem cast4_valid_eq (g : Nat) (hg : g < 16) : cast4_valid g = 4 := by
  interval_cases g <;> rfl

/-! ## The linear scan -/

theorem spu_extract_eq {α : Type} (v : Fin 4 → α) (k : Nat) : spu_extract v k = v (lane k) :=
  rfl

theorem lane_val (i : Fin 4) : lane i.val = i := by
  apply Fin.ext
  simp [lane, Nat.mod_eq_of_lt i.isLt]

theorem scanInv_step (fail : VecU) (t : VecF) (S : List Nat) (st : ℚ × Option Nat) (k : Nat)
    (h : ScanInv fail t S st) : ScanInv fail t (S ++ [k]) (cast4_scanStep fail t st k) := by
  unfold cast4_scanStep
  simp only [spu_extract_eq]
  rcases h with ⟨rfl, hS⟩ | ⟨w, hw, rfl, hfw, htw, hmin⟩
  · by_cases hf : fail (lane k) = allOnes
    · rw [if_pos hf]
      refine Or.inl ⟨rfl, fun j hj hfj => ?_⟩
      rcases List.mem_append.1 hj with hj | hj
      · exact hS j hj hfj
      · rw [List.mem_singleton] at hj
        subst hj
        exact absurd hf hfj
    · rw [if_neg hf]
      by_cases hlt : t (lane k) < 3487534
      · rw [if_pos hlt]
        refine Or.inr ⟨k, by simp, rfl, hf, hlt, fun j hj hfj => ?_⟩
        rcases List.mem_append.1 hj with hj | hj
        · exact le_trans (le_of_lt hlt) (hS j hj hfj)
        · rw [List.mem_singleton] at hj
          subst hj
          exact le_refl _
      · rw [if_neg hlt]
        refine Or.inl ⟨rfl, fun j hj hfj => ?_⟩
        rcases List.mem_append.1 hj with hj | hj
        · exact hS j hj hfj
        · rw [List.mem_singleton] at hj
          subst hj
          exact not_lt.1 hlt
  · by_cases hf : fail (lane k) = allOnes
    · rw [if_pos hf]
      refine Or.inr ⟨w, by simp [hw], rfl, hfw, htw, fun j hj hfj => ?_⟩
      rcases List.mem_append.1 hj with hj | hj
      · exact hmin j hj hfj
      · rw [List.mem_singleton] at hj
        subst hj
        exact absurd hf hfj
    · rw [if_neg hf]
      by_cases hlt : t (lane k) < t (lane w)
      · rw [if_pos hlt]
        refine Or.inr ⟨k, by simp, rfl, hf, lt_trans hlt htw, fun j hj hfj => ?_⟩
        rcases List.mem_append.1 hj with hj | hj
        · exact le_trans (le_of_lt hlt) (hmin j hj hfj)
        · rw [List.mem_singleton] at hj
          subst hj
          exact le_refl _
      · rw [if_neg hlt]
        refine Or.inr ⟨w, by simp [hw], rfl, hfw, htw, fun j hj hfj => ?_⟩
        rcases List.mem_append.1 hj with hj | hj
        · exact hmin j hj hfj
        · rw [List.mem_singleton] at hj
          subst hj
          exact not_lt.1 hlt

theorem scanInv_foldl (fail : VecU) (t : VecF) (l : List Nat) :
    ∀ (S : List Nat) (st : ℚ × Option Nat), ScanInv fail t S st →
      ScanInv fail t (S ++ l) (l.foldl (cast4_scanStep fail t) st) := by
  induction l with
  | nil =>
    intro S st h
    simpa using h
  | cons k l ih =>
    intro S st h
    have h2 := ih (S ++ [k]) _ (scanInv_step fail t S st k h)
    simpa [List.append_assoc] using h2

theorem mem_lanes (i : Fin 4) : i.val ∈ [0, 1, 2, 3] := by
  fin_cases i <;> simp

theorem lane_of_mem (k : Nat) (hk : k ∈ [0, 1, 2, 3]) : (lane k).val = k := by
  simp only [List.mem_cons, List.mem_singleton, List.not_mem_nil, or_false] at hk
  rcases hk with rfl | rfl | rfl | rfl <;> rfl

/-- The linear scan either leaves `hitIndex` unassigned, which happens exactly when no
lane with failure bit clear has `t` below 3487534, or ends on a lane with failure bit
clear whose `t` is least among such lanes. -/
theorem cast4_scan_spec (fail : VecU) (t : VecF) :
    (cast4_scan fail t = (3487534, none) ∧ ∀ i, fail i ≠ allOnes → 3487534 ≤ t i) ∨
    (∃ w : Fin 4, cast4_scan fail t = (t w, some w.val) ∧ fail w ≠ allOnes ∧
      t w < 3487534 ∧ ∀ i, fail i ≠ allOnes → t w ≤ t i) := by
  have h0 : ScanInv fail t [] (3487534, none) := Or.inl ⟨rfl, fun k hk => by simp at hk⟩
  have h := scanInv_foldl fail t [0, 1, 2, 3] [] _ h0
  rw [List.nil_append] at h
  rcases h with ⟨hst, hS⟩ | ⟨w, hw, hst, hfw, htw, hmin⟩
  · refine Or.inl ⟨hst, fun i hi => ?_⟩
    have := hS i.val (mem_lanes i)
    rw [lane_val] at this
    exact this hi
  · refine Or.inr ⟨lane w, ?_, hfw, htw, fun i hi => ?_⟩
    · rw [lane_of_mem w hw]
      exact hst
    · have := hmin i.val (mem_lanes i)
      rw [lane_val] at this
      exact this hi

theorem cast4_select_eq_scan (fail : VecU) (t : VecF) :
    cast4_select fail t (spu_extract (spu_gather fail) 0) = cast4_scan fail t := by
  unfold cast4_select
  rw [cast4_valid_eq _ (gather_lt_16 fail)]
  simp

/-! ## The control flow of cast4 -/

theorem cast4_of_all_det (_tri : Fin 4 → Triangle) (r : Ray) (tri : Tri_4)
    (hA : ∀ i, FailsDet r tri i) : cast4 _tri r tri = some ⟨-1, r, false⟩ := by
  unfold cast4
  rw [if_pos ((failA_eq r tri) ▸ (gather_maskOf _).2 hA)]

theorem cast4_of_all_u (_tri : Fin 4 → Triangle) (r : Ray) (tri : Tri_4)
    (hA : ¬ ∀ i, FailsDet r tri i) (hB : ∀ i, FailsDet r tri i ∨ FailsU r tri i) :
    cast4 _tri r tri = some ⟨-2, r, false⟩ := by
  unfold cast4
  rw [if_neg (by rw [failA_eq, gather_maskOf]; exact hA),
    if_pos (by rw [failB_eq, gather_maskOf]; exact hB)]

theorem cast4_of_all_v (_tri : Fin 4 → Triangle) (r : Ray) (tri : Tri_4)
    (hB : ¬ ∀ i, FailsDet r tri i ∨ FailsU r tri i)
    (hC : ∀ i, (FailsDet r tri i ∨ FailsU r tri i) ∨ FailsV r tri i) :
    cast4 _tri r tri = some ⟨-3, r, false⟩ := by
  have hA : ¬ ∀ i, FailsDet r tri i := fun h => hB (fun i => Or.inl (h i))
  unfold cast4
  rw [if_neg (by rw [failA_eq, gather_maskOf]; exact hA),
    if_neg (by rw [failB_eq, gather_maskOf]; exact hB),
    if_pos (by rw [failC_eq, gather_maskOf]; exact hC)]

theorem cast4_of_all_t (_tri : Fin 4 → Triangle) (r : Ray) (tri : Tri_4)
    (hC : ¬ ∀ i, (FailsDet r tri i ∨ FailsU r tri i) ∨ FailsV r tri i)
    (hD : ∀ i, ((FailsDet r tri i ∨ FailsU r tri i) ∨ FailsV r tri i) ∨ FailsT r tri i) :
    cast4 _tri r tri = some ⟨-4, r, false⟩ := by
  have hB : ¬ ∀ i, FailsDet r tri i ∨ FailsU r tri i := fun h => hC (fun i => Or.inl (h i))
  have hA : ¬ ∀ i, FailsDet r tri i := fun h => hB (fun i => Or.inl (h i))
  have hg : spu_extract (spu_gather (cast4_fail r tri)) 0 = 15 := by
    rw [fail_eq, gather_maskOf]
    exact hD
  unfold cast4
  rw [if_neg (by rw [failA_eq, gather_maskOf]; exact hA),
    if_neg (by rw [failB_eq, gather_maskOf]; exact hB),
    if_neg (by rw [failC_eq, gather_maskOf]; exact hC)]
  simp [hg]

/-- With a lane whose failure bit is clear, `cast4` is the selection of lines 103-133
followed by lines 136-152. -/
theorem cast4_of_survivor (_tri : Fin 4 → Triangle) (r : Ray) (tri : Tri_4)
    (h : ∃ i, Survives r tri i) :
    cast4 _tri r tri =
      match cast4_scan (cast4_fail r tri) (cast4_t r tri) with
      | (_, none) => none
      | (hitT, some hitIndex) =>
        if h : hitIndex < 4 then
          if |hitT| > |r.t| then
            some ⟨2, r, decide (spu_extract (cast4_fail r tri) hitIndex = allOnes)⟩
          else
            some ⟨1, cast4_accept r (_tri ⟨hitIndex, h⟩) (cast4_u r tri) (cast4_v r tri)
              hitIndex hitT, decide (spu_extract (cast4_fail r tri) hitIndex = allOnes)⟩
        else none := by
  obtain ⟨i, hi⟩ := h
  rw [survives_iff] at hi
  have hC : ¬ ∀ i, (FailsDet r tri i ∨ FailsU r tri i) ∨ FailsV r tri i :=
    fun h => by have := h i; tauto
  have hB : ¬ ∀ i, FailsDet r tri i ∨ FailsU r tri i := fun h => hC (fun i => Or.inl (h i))
  have hA : ¬ ∀ i, FailsDet r tri i := fun h => hB (fun i => Or.inl (h i))
  have hg : spu_extract (spu_gather (cast4_fail r tri)) 0 ≠ 15 := by
    rw [gather_fail_ne_15]
    exact ⟨i, (survives_iff r tri i).2 hi⟩
  unfold cast4
  rw [if_neg (by rw [failA_eq, gather_maskOf]; exact hA),
    if_neg (by rw [failB_eq, gather_maskOf]; exact hB),
    if_neg (by rw [failC_eq, gather_maskOf]; exact hC)]
  simp only [hg, ne_eq, not_false_eq_true, if_true, cast4_select_eq_scan]

/-- The two ways a call with a surviving lane can end: no surviving lane lies below
3487534 and `hitIndex` is read unassigned, or the scan ends on a surviving lane `w` of
least `t`, and lines 138-152 run on it. -/
theorem cast4_survivor_cases (_tri : Fin 4 → Triangle) (r : Ray) (tri : Tri_4)
    (h : ∃ i, Survives r tri i) :
    ((∀ i, Survives r tri i → 3487534 ≤ cast4_t r tri i) ∧ cast4 _tri r tri = none) ∨
    (∃ w : Fin 4, Survives r tri w ∧ cast4_t r tri w < 3487534 ∧
      (∀ i, Survives r tri i → cast4_t r tri w ≤ cast4_t r tri i) ∧
      cast4_scan (cast4_fail r tri) (cast4_t r tri) = (cast4_t r tri w, some w.val) ∧
      cast4 _tri r tri =
        if |cast4_t r tri w| > |r.t| then some ⟨2, r, false⟩
        else some ⟨1, cast4_accept r (_tri w) (cast4_u r tri) (cast4_v r tri) w.val
          (cast4_t r tri w), false⟩) := by
  rw [cast4_of_survivor _tri r tri h]
  rcases cast4_scan_spec (cast4_fail r tri) (cast4_t r tri) with
    ⟨hst, hS⟩ | ⟨w, hst, hfw, htw, hmin⟩
  · refine Or.inl ⟨fun i hi => hS i ((fail_ne_allOnes_iff r tri i).2 hi), ?_⟩
    rw [hst]
  · refine Or.inr ⟨w, (fail_ne_allOnes_iff r tri w).1 hfw, htw,
      fun i hi => hmin i ((fail_ne_allOnes_iff r tri i).2 hi), hst, ?_⟩
    rw [hst]
    have hp : decide (spu_extract (cast4_fail r tri) w.val = allOnes) = false := by
      rw [spu_extract_eq, lane_val]
      exact decide_eq_false hfw
    simp only [w.isLt, dite_true, hp]

/-- Every defined result of `cast4` is of one of two kinds: a negative status with the
ray as it was and no lane with failure bit clear, or the outcome of lines 138-152 on a
surviving lane `w` of least `t`, the lane the scan selected. -/
theorem cast4_result_cases (_tri : Fin 4 → Triangle) (r : Ray) (tri : Tri_4)
    (res : Cast4Result) (h : cast4 _tri r tri = some res) :
    ((¬ ∃ i, Survives r tri i) ∧ res.ray = r ∧ res.printed = false ∧
      (res.status = -1 ∨ res.status = -2 ∨ res.status = -3 ∨ res.status = -4)) ∨
    (∃ w : Fin 4, Survives r tri w ∧ cast4_t r tri w < 3487534 ∧
      (∀ i, Survives r tri i → cast4_t r tri w ≤ cast4_t r tri i) ∧
      cast4_scan (cast4_fail r tri) (cast4_t r tri) = (cast4_t r tri w, some w.val) ∧
      ((|cast4_t r tri w| > |r.t| ∧ res = ⟨2, r, false⟩) ∨
       (¬ |cast4_t r tri w| > |r.t| ∧
        res = ⟨1, cast4_accept r (_tri w) (cast4_u r tri) (cast4_v r tri) w.val
          (cast4_t r tri w), false⟩))) := by
  by_cases hs : ∃ i, Survives r tri i
  · rcases cast4_survivor_cases _tri r tri hs with ⟨_, hn⟩ | ⟨w, hw, hlt, hmin, hscan, hc⟩
    · rw [hn] at h
      exact absurd h (by simp)
    · refine Or.inr ⟨w, hw, hlt, hmin, hscan, ?_⟩
      rw [hc] at h
      by_cases hgt : |cast4_t r tri w| > |r.t|
      · rw [if_pos hgt] at h
        exact Or.inl ⟨hgt, (Option.some.inj h).symm⟩
      · rw [if_neg hgt] at h
        exact Or.inr ⟨hgt, (Option.some.inj h).symm⟩
  · refine Or.inl ⟨hs, ?_⟩
    have hD : ∀ i, ((FailsDet r tri i ∨ FailsU r tri i) ∨ FailsV r tri i) ∨ FailsT r tri i := by
      intro i
      by_contra hc
      exact hs ⟨i, (survives_iff r tri i).2 (by tauto)⟩
    by_cases hA : ∀ i, FailsDet r tri i
    · rw [cast4_of_all_det _tri r tri hA] at h
      rw [← Option.some.inj h]
      simp
    · by_cases hB : ∀ i, FailsDet r tri i ∨ FailsU r tri i
      · rw [cast4_of_all_u _tri r tri hA hB] at h
        rw [← Option.some.inj h]
        simp
      · by_cases hC : ∀ i, (FailsDet r tri i ∨ FailsU r tri i) ∨ FailsV r tri i
        · rw [cast4_of_all_v _tri r tri hB hC] at h
          rw [← Option.some.inj h]
          simp
        · rw [cast4_of_all_t _tri r tri hC hD] at h
          rw [← Option.some.inj h]
          simp

/-! ## The scenario: one triangle in lane 0, zero-area triangles in lanes 1 to 3 -/

theorem failsDet_of_zeroArea (r : Ray) (tri : Tri_4) (i : Fin 4) (hz : ZeroArea tri i) :
    FailsDet r tri i := by
  obtain ⟨hx, hy, hz⟩ := hz
  simp only [cross4] at hx hy hz
  simp only [FailsDet, cast4_det, cast4_p, dot4, cross1_4]
  linear_combination (-r.ray.x) * hx - r.ray.y * hy - r.ray.z * hz

theorem scenario_lane0 (r : Ray) (tri : Tri_4) (d : ℚ)
    (ho : r.origin = { x := 0, y := 0, z := -d }) (hd : r.ray = { x := 0, y := 0, z := 1 })
    (h0 : extractTriangle tri 0 = scenarioTriangle) :
    cast4_det r tri 0 = -4 ∧ cast4_u r tri 0 = 1 / 4 ∧ cast4_v r tri 0 = 1 / 2 ∧
      cast4_t r tri 0 = d := by
  simp only [extractTriangle, scenarioTriangle, Triangle.mk.injEq, Vec.mk.injEq] at h0
  obtain ⟨⟨p1x, p1y, p1z⟩, ⟨e1x, e1y, e1z⟩, ⟨e2x, e2y, e2z⟩⟩ := h0
  have hdet : cast4_det r tri 0 = -4 := by
    simp only [cast4_det, cast4_p, dot4, cross1_4, hd, e1x, e1y, e1z, e2x, e2y, e2z]
    norm_num
  have hf : cast4_f r tri 0 = -(1 / 4) := by
    simp only [cast4_f, recipf4, cast4_a, spu_sel, cast4_failA, spu_cmpeq, hdet, zeroes,
      spu_splats]
    norm_num
  refine ⟨hdet, ?_, ?_, ?_⟩
  · simp only [cast4_u, spu_mul, hf, dot4, cast4_s, sub4, vec1to4, cast4_p, cross1_4, ho, hd,
      p1x, p1y, p1z, e2x, e2y, e2z]
    norm_num
  · simp only [cast4_v, spu_mul, hf, dot4, cast4_q, cross4, cast4_s, sub4, vec1to4, ho, hd,
      p1x, p1y, p1z, e1x, e1y, e1z]
    norm_num
  · simp only [cast4_t, spu_mul, hf, dot4, cast4_q, cross4, cast4_s, sub4, vec1to4, ho,
      p1x, p1y, p1z, e1x, e1y, e1z, e2x, e2y, e2z]
    ring

theorem scenario_survives (r : Ray) (tri : Tri_4) (d : ℚ)
    (ho : r.origin = { x := 0, y := 0, z := -d }) (hd : r.ray = { x := 0, y := 0, z := 1 })
    (h0 : extractTriangle tri 0 = scenarioTriangle) (hz : ∀ i, i ≠ 0 → ZeroArea tri i)
    (i : Fin 4) : Survives r tri i ↔ i = 0 ∧ 0 ≤ d := by
  obtain ⟨hdet, hu, hv, ht⟩ := scenario_lane0 r tri d ho hd h0
  rw [survives_iff]
  by_cases hi : i = 0
  · subst hi
    simp only [FailsDet, FailsU, FailsV, FailsT, hdet, hu, hv, ht, true_and]
    norm_num
  · have := failsDet_of_zeroArea r tri i (hz i hi)
    simp [hi, this]

/-- The scenario, evaluated: with the hit at distance `d`, `0 ≤ d < 3487534`, the call
ends in lines 138-152 on lane 0. -/
theorem scenario_cast4 (_tri : Fin 4 → Triangle) (r : Ray) (tri : Tri_4) (d : ℚ)
    (ho : r.origin = { x := 0, y := 0, z := -d }) (hd : r.ray = { x := 0, y := 0, z := 1 })
    (h0 : extractTriangle tri 0 = scenarioTriangle) (hz : ∀ i, i ≠ 0 → ZeroArea tri i)
    (hd0 : 0 ≤ d) (hd1 : d < 3487534) :
    cast4 _tri r tri =
      if |d| > |r.t| then some ⟨2, r, false⟩
      else some ⟨1, cast4_accept r (_tri 0) (cast4_u r tri) (cast4_v r tri) 0 d, false⟩ := by
  have hsurv := scenario_survives r tri d ho hd h0 hz
  have ht := (scenario_lane0 r tri d ho hd h0).2.2.2
  have hex : ∃ i, Survives r tri i := ⟨0, (hsurv 0).2 ⟨rfl, hd0⟩⟩
  rcases cast4_survivor_cases _tri r tri hex with ⟨hfar, _⟩ | ⟨w, hw, _, _, _, hc⟩
  · have := hfar 0 ((hsurv 0).2 ⟨rfl, hd0⟩)
    rw [ht] at this
    exact absurd hd1 (not_lt.2 this)
  · have hw0 : w = 0 := ((hsurv w).1 hw).1
    subst hw0
    rw [hc, ht]
    rfl

/-- The scenario with the hit at distance 3487534 or beyond: `hitIndex` is read while
unassigned. -/
theorem scenario_cast4_far (_tri : Fin 4 → Triangle) (r : Ray) (tri : Tri_4) (d : ℚ)
    (ho : r.origin = { x := 0, y := 0, z := -d }) (hd : r.ray = { x := 0, y := 0, z := 1 })
    (h0 : extractTriangle tri 0 = scenarioTriangle) (hz : ∀ i, i ≠ 0 → ZeroArea tri i)
    (hd1 : 3487534 ≤ d) : cast4 _tri r tri = none := by
  have hsurv := scenario_survives r tri d ho hd h0 hz
  have ht := (scenario_lane0 r tri d ho hd h0).2.2.2
  have hd0 : 0 ≤ d := le_trans (by norm_num) hd1
  have hex : ∃ i, Survives r tri i := ⟨0, (hsurv 0).2 ⟨rfl, hd0⟩⟩
  rcases cast4_survivor_cases _tri r tri hex with ⟨_, hn⟩ | ⟨w, hw, hlt, _, _, _⟩
  · exact hn
  · have hw0 : w = 0 := ((hsurv w).1 hw).1
    subst hw0
    rw [ht] at hlt
    exact absurd hlt (not_lt.2 hd1)

theorem scenarioTris_lane0 : extractTriangle (packTri_4 scenarioTris) 0 = scenarioTriangle := by
  rfl

theorem scenarioTris_zeroArea (i : Fin 4) (hi : i ≠ 0) :
    ZeroArea (packTri_4 scenarioTris) i := by
  fin_cases i
  · exact absurd rfl hi
  all_goals simp [ZeroArea, cross4, packTri_4, scenarioTris, pointTriangle]

theorem axisRay_cast4 (d best : ℚ) (hd0 : 0 ≤ d) (hd1 : d < 3487534) :
    cast4 scenarioTris (axisRay d best) (packTri_4 scenarioTris) =
      if |d| > |best| then some ⟨2, axisRay d best, false⟩
      else some ⟨1, cast4_accept (axisRay d best) scenarioTriangle
        (cast4_u (axisRay d best) (packTri_4 scenarioTris))
        (cast4_v (axisRay d best) (packTri_4 scenarioTris)) 0 d, false⟩ :=
  scenario_cast4 scenarioTris (axisRay d best) (packTri_4 scenarioTris) d rfl rfl
    scenarioTris_lane0 scenarioTris_zeroArea hd0 hd1

theorem axisRay_cast4_far (d best : ℚ) (hd1 : 3487534 ≤ d) :
    cast4 scenarioTris (axisRay d best) (packTri_4 scenarioTris) = none :=
  scenario_cast4_far scenarioTris (axisRay d best) (packTri_4 scenarioTris) d rfl rfl
    scenarioTris_lane0 scenarioTris_zeroArea hd1

/-! ## C1: only status 1 touches the ray -/

/-- C1: whenever `cast4` returns a status other than 1, the ray after the call is the ray
before the call, in every field (origin, direction, t, intersection, color, itri), and
the status is one of -1, -2, -3, -4, 2. -/
theorem cast4_ray_untouched_unless_status_one (_tri : Fin 4 → Triangle) (r : Ray)
    (tri : Tri_4) (res : Cast4Result) (h : cast4 _tri r tri = some res)
    (hs : res.status ≠ 1) :
    res.ray = r ∧
      (res.status = -1 ∨ res.status = -2 ∨ res.status = -3 ∨ res.status = -4 ∨
        res.status = 2) := by
  rcases cast4_result_cases _tri r tri res h with
    ⟨_, hr, _, hst⟩ | ⟨w, _, _, _, _, ⟨_, hres⟩ | ⟨_, hres⟩⟩
  · exact ⟨hr, by tauto⟩
  · subst hres
    simp
  · subst hres
    exact absurd rfl hs

/-- C1 at a concrete call: the scenario ray with best distance 4 meets the triangle at
distance 5, status 2 comes back and the ray is as before. -/
theorem cast4_ray_untouched_unless_status_one_witness :
    cast4 scenarioTris (axisRay 5 4) scenarioBatch = some ⟨2, axisRay 5 4, false⟩ ∧
      (2 : Int) ≠ 1 ∧
      ((⟨2, axisRay 5 4, false⟩ : Cast4Result).ray = axisRay 5 4 ∧
        ((2 : Int) = -1 ∨ (2 : Int) = -2 ∨ (2 : Int) = -3 ∨ (2 : Int) = -4 ∨ (2 : Int) = 2)) :=
  have hc : cast4 scenarioTris (axisRay 5 4) (packTri_4 scenarioTris)
      = some ⟨2, axisRay 5 4, false⟩ := by
    rw [axisRay_cast4 5 4 (by norm_num) (by norm_num)]
    norm_num
  ⟨hc, by decide,
    cast4_ray_untouched_unless_status_one scenarioTris (axisRay 5 4) scenarioBatch
      ⟨2, axisRay 5 4, false⟩ hc (by decide)⟩

/-! ## What status 1 writes when the scan assigned hitIndex -/

/-- What status 1 writes on a call with a defined result, that is, when the scan assigned
`hitIndex`: there is a winning lane `w`, the index the selection of lines 103-133 ends on,
the ray's intersection is `p1 + u_w*e1 + v_w*e2` of element `w` of the triangle array, the
ray's `t` is lane `w`'s hit distance, `itri` references element `w` and the colour is
(0.3, 0.7, 1). -/
theorem cast4_status_one_writes_hit (_tri : Fin 4 → Triangle) (r : Ray) (tri : Tri_4)
    (res : Cast4Result) (h : cast4 _tri r tri = some res) (h1 : res.status = 1) :
    ∃ w : Fin 4,
      (cast4_select (cast4_fail r tri) (cast4_t r tri)
        (spu_extract (spu_gather (cast4_fail r tri)) 0)).2 = some w.val ∧
      res.ray.intersection =
        { x := (_tri w).p1.x + cast4_u r tri w * (_tri w).e1.x + cast4_v r tri w * (_tri w).e2.x
          y := (_tri w).p1.y + cast4_u r tri w * (_tri w).e1.y + cast4_v r tri w * (_tri w).e2.y
          z := (_tri w).p1.z + cast4_u r tri w * (_tri w).e1.z
            + cast4_v r tri w * (_tri w).e2.z } ∧
      res.ray.t = cast4_t r tri w ∧
      res.ray.itri = some w.val ∧
      res.ray.color = { x := 3 / 10, y := 7 / 10, z := 1 } := by
  rcases cast4_result_cases _tri r tri res h with
    ⟨_, _, _, hst⟩ | ⟨w, _, _, _, hscan, ⟨_, hres⟩ | ⟨_, hres⟩⟩
  · rw [h1] at hst
    exact absurd hst (by decide)
  · subst hres
    simp at h1
  · subst hres
    refine ⟨w, ?_, ?_, rfl, rfl, rfl⟩
    · rw [cast4_select_eq_scan, hscan]
    · simp only [cast4_accept, addInPlace, add, scaleNewVec, spu_extract_eq, lane_val,
        Vec.mk.injEq]
      refine ⟨?_, ?_, ?_⟩ <;> ring

theorem axisRay_cast4_hit (d best : ℚ) (hd0 : 0 ≤ d) (hd1 : d < 3487534)
    (hle : ¬ |d| > |best|) :
    cast4 scenarioTris (axisRay d best) scenarioBatch = some ⟨1, axisRayHit d best, false⟩ := by
  obtain ⟨_, hu, hv, _⟩ := scenario_lane0 (axisRay d best) (packTri_4 scenarioTris) d rfl rfl
    scenarioTris_lane0
  unfold scenarioBatch
  rw [axisRay_cast4 d best hd0 hd1, if_neg hle]
  simp only [cast4_accept, spu_extract_eq, lane, Nat.zero_mod, Fin.zero_eta, hu, hv,
    scenarioTriangle, scaleNewVec, add, addInPlace, axisRayHit]
  norm_num

/-! ## C3: nearest-hit selection -/

/-- C3, the code at the failing input: the scenario ray started 4000000 away from the
triangle.  Lane 0 has failure bit zero and hit distance 4000000, the only such lane; the
scan of lines 112-125 never assigns `hitIndex` because 4000000 is not below the initial
`hitT = 3487534`, so no lane is selected and the read of `hitIndex` at line 126 is
undefined. -/
theorem cast4_selects_no_lane_at_far_hit :
    Survives (axisRay 4000000 10000000) scenarioBatch 0 ∧
      cast4_t (axisRay 4000000 10000000) scenarioBatch 0 = 4000000 ∧
      (∀ i, Survives (axisRay 4000000 10000000) scenarioBatch i → i = 0) ∧
      cast4_scan (cast4_fail (axisRay 4000000 10000000) scenarioBatch)
        (cast4_t (axisRay 4000000 10000000) scenarioBatch) = (3487534, none) ∧
      cast4 scenarioTris (axisRay 4000000 10000000) scenarioBatch = none := by
  have hs := scenario_survives (axisRay 4000000 10000000) scenarioBatch 4000000 rfl rfl
    scenarioTris_lane0 scenarioTris_zeroArea
  have ht := (scenario_lane0 (axisRay 4000000 10000000) scenarioBatch 4000000 rfl rfl
    scenarioTris_lane0).2.2.2
  refine ⟨(hs 0).2 ⟨rfl, by norm_num⟩, ht, fun i hi => ((hs i).1 hi).1, ?_,
    axisRay_cast4_far 4000000 10000000 (by norm_num)⟩
  rcases cast4_scan_spec (cast4_fail (axisRay 4000000 10000000) scenarioBatch)
    (cast4_t (axisRay 4000000 10000000) scenarioBatch) with ⟨hst, _⟩ | ⟨w, _, hfw, htw, _⟩
  · exact hst
  · have hw0 : w = 0 := ((hs w).1 ((fail_ne_allOnes_iff _ _ w).1 hfw)).1
    subst hw0
    rw [ht] at htw
    exact absurd htw (by norm_num)

/-! ## C4: no false hits -/

theorem cast4_f_of_det_ne (r : Ray) (tri : Tri_4) (i : Fin 4) (h : ¬ FailsDet r tri i) :
    cast4_f r tri i = 1 / cast4_det r tri i := by
  have h0 : cast4_failA r tri i = 0 := by
    rw [failA_eq]
    simp [maskOf, h]
  simp [cast4_f, recipf4, cast4_a, spu_sel, h0]

/-- Möller-Trumbore: in a lane with non-zero determinant the point at parameter `t` on
the ray is the point with barycentric coordinates `u`, `v` in the triangle's plane. -/
theorem lane_point_on_ray (r : Ray) (tri : Tri_4) (i : Fin 4) (h : ¬ FailsDet r tri i) :
    r.origin.x + cast4_t r tri i * r.ray.x
        = tri.p1.x i + cast4_u r tri i * tri.e1.x i + cast4_v r tri i * tri.e2.x i ∧
      r.origin.y + cast4_t r tri i * r.ray.y
        = tri.p1.y i + cast4_u r tri i * tri.e1.y i + cast4_v r tri i * tri.e2.y i ∧
      r.origin.z + cast4_t r tri i * r.ray.z
        = tri.p1.z i + cast4_u r tri i * tri.e1.z i + cast4_v r tri i * tri.e2.z i := by
  have hf := cast4_f_of_det_ne r tri i h
  have ha : tri.e1.x i * (r.ray.y * tri.e2.z i - r.ray.z * tri.e2.y i)
      + tri.e1.y i * (r.ray.z * tri.e2.x i - r.ray.x * tri.e2.z i)
      + tri.e1.z i * (r.ray.x * tri.e2.y i - r.ray.y * tri.e2.x i) ≠ 0 := h
  simp only [cast4_t, cast4_u, cast4_v, spu_mul, hf, cast4_det, dot4, cast4_p, cross1_4,
    cast4_q, cross4, cast4_s, sub4, vec1to4]
  refine ⟨?_, ?_, ?_⟩ <;> field_simp <;> ring

theorem geomHit_of_survives (r : Ray) (tri : Tri_4) (i : Fin 4) (h : Survives r tri i) :
    GeomHit r tri i := by
  rw [survives_iff] at h
  obtain ⟨hdet, hu, hv, ht⟩ := h
  simp only [FailsU, FailsV, FailsT, not_or, not_lt, gt_iff_lt] at hu hv ht
  obtain ⟨hx, hy, hz⟩ := lane_point_on_ray r tri i hdet
  exact ⟨cast4_t r tri i, cast4_u r tri i, cast4_v r tri i, ht, hu.2, hv.1, hv.2, hx, hy, hz⟩

theorem cast4_of_no_survivor (_tri : Fin 4 → Triangle) (r : Ray) (tri : Tri_4)
    (hs : ¬ ∃ i, Survives r tri i) :
    ∃ s : Int, cast4 _tri r tri = some ⟨s, r, false⟩ ∧ (s = -1 ∨ s = -2 ∨ s = -3 ∨ s = -4) := by
  have hD : ∀ i, ((FailsDet r tri i ∨ FailsU r tri i) ∨ FailsV r tri i) ∨ FailsT r tri i := by
    intro i
    by_contra hc
    exact hs ⟨i, (survives_iff r tri i).2 (by tauto)⟩
  by_cases hA : ∀ i, FailsDet r tri i
  · exact ⟨-1, cast4_of_all_det _tri r tri hA, by decide⟩
  · by_cases hB : ∀ i, FailsDet r tri i ∨ FailsU r tri i
    · exact ⟨-2, cast4_of_all_u _tri r tri hA hB, by decide⟩
    · by_cases hC : ∀ i, (FailsDet r tri i ∨ FailsU r tri i) ∨ FailsV r tri i
      · exact ⟨-3, cast4_of_all_v _tri r tri hB hC, by decide⟩
      · exact ⟨-4, cast4_of_all_t _tri r tri hC hD, by decide⟩

/-- C4 (P1, no false hits): if no lane's triangle is geometrically intersected by the ray
then `cast4` returns one of -1, -2, -3, -4 and the ray is as before; and whenever `cast4`
returns 1 or 2 some lane's triangle is geometrically intersected by the ray. -/
theorem cast4_no_false_hits (_tri : Fin 4 → Triangle) (r : Ray) (tri : Tri_4) :
    ((¬ ∃ i, GeomHit r tri i) →
      ∃ s : Int, cast4 _tri r tri = some ⟨s, r, false⟩ ∧
        (s = -1 ∨ s = -2 ∨ s = -3 ∨ s = -4)) ∧
    (∀ res : Cast4Result, cast4 _tri r tri = some res → res.status = 1 ∨ res.status = 2 →
      ∃ i, GeomHit r tri i) := by
  constructor
  · intro hno
    exact cast4_of_no_survivor _tri r tri
      (fun ⟨i, hi⟩ => hno ⟨i, geomHit_of_survives r tri i hi⟩)
  · intro res h hst
    rcases cast4_result_cases _tri r tri res h with ⟨_, _, _, hneg⟩ | ⟨w, hw, _⟩
    · rcases hst with h1 | h2
      · rw [h1] at hneg
        exact absurd hneg (by decide)
      · rw [h2] at hneg
        exact absurd hneg (by decide)
    · exact ⟨w, geomHit_of_survives r tri w hw⟩

theorem axisRay_behind_no_geomHit :
    ¬ ∃ i, GeomHit (axisRay (-5) 100) scenarioBatch i := by
  rintro ⟨i, t, u, v, ht, _, _, _, _, _, hz⟩
  have h5 : (5 : ℚ) + t = 0 := by
    fin_cases i <;>
      simpa [axisRay, scenarioBatch, packTri_4, scenarioTris, scenarioTriangle,
        pointTriangle] using hz
  linarith

/-- C4 at concrete calls: the scenario ray started behind the plane of the triangles and
pointing away meets no triangle and gets a negative status; the scenario ray with best
distance 100 gets status 1 and lane 0 is geometrically intersected. -/
theorem cast4_no_false_hits_witness :
    ((¬ ∃ i, GeomHit (axisRay (-5) 100) scenarioBatch i) ∧
      ∃ s : Int, cast4 scenarioTris (axisRay (-5) 100) scenarioBatch
          = some ⟨s, axisRay (-5) 100, false⟩ ∧
        (s = -1 ∨ s = -2 ∨ s = -3 ∨ s = -4)) ∧
    (cast4 scenarioTris (axisRay 5 100) scenarioBatch = some ⟨1, axisRayHit 5 100, false⟩ ∧
      ((⟨1, axisRayHit 5 100, false⟩ : Cast4Result).status = 1 ∨
        (⟨1, axisRayHit 5 100, false⟩ : Cast4Result).status = 2) ∧
      ∃ i, GeomHit (axisRay 5 100) scenarioBatch i) :=
  have hc := axisRay_cast4_hit 5 100 (by norm_num) (by norm_num) (by norm_num)
  ⟨⟨axisRay_behind_no_geomHit,
      (cast4_no_false_hits scenarioTris (axisRay (-5) 100) scenarioBatch).1
        axisRay_behind_no_geomHit⟩,
    hc, Or.inl rfl,
    (cast4_no_false_hits scenarioTris (axisRay 5 100) scenarioBatch).2
      ⟨1, axisRayHit 5 100, false⟩ hc (Or.inl rfl)⟩

/-! ## C5: the scalar oracle -/

/-- The scalar test on the triangle of lane `i` hits exactly when the lane's final
failure bit is zero, and then with the lane's `t`, `u`, `v`. -/
theorem scalar_eq_lane (r : Ray) (tri : Tri_4) (i : Fin 4) :
    scalarMollerTrumbore r (extractTriangle tri i) =
      if Survives r tri i then some (cast4_t r tri i, cast4_u r tri i, cast4_v r tri i)
      else none := by
  have ea : dot (extractTriangle tri i).e1 (cross r.ray (extractTriangle tri i).e2)
      = cast4_det r tri i := rfl
  simp only [scalarMollerTrumbore, ea]
  by_cases hdet : cast4_det r tri i = 0
  · rw [if_pos hdet, if_neg]
    rw [survives_iff]
    exact fun h => h.1 hdet
  · rw [if_neg hdet]
    have hf := cast4_f_of_det_ne r tri i hdet
    have eu : 1 / cast4_det r tri i * dot (sub r.origin (extractTriangle tri i).p1)
        (cross r.ray (extractTriangle tri i).e2) = cast4_u r tri i := by
      rw [← hf]
      rfl
    have ev : 1 / cast4_det r tri i * dot r.ray
        (cross (sub r.origin (extractTriangle tri i).p1) (extractTriangle tri i).e1)
          = cast4_v r tri i := by
      rw [← hf]
      rfl
    have et : 1 / cast4_det r tri i * dot (extractTriangle tri i).e2
        (cross (sub r.origin (extractTriangle tri i).p1) (extractTriangle tri i).e1)
          = cast4_t r tri i := by
      rw [← hf]
      rfl
    simp only [eu, ev, et]
    by_cases hu : cast4_u r tri i < 0 ∨ cast4_u r tri i > 1
    · rw [if_pos hu, if_neg]
      rw [survives_iff]
      exact fun h => h.2.1 (by unfold FailsU; tauto)
    · rw [if_neg hu]
      by_cases hv : cast4_v r tri i < 0 ∨ cast4_u r tri i + cast4_v r tri i > 1
      · rw [if_pos hv, if_neg]
        rw [survives_iff]
        exact fun h => h.2.2.1 hv
      · rw [if_neg hv]
        by_cases ht : cast4_t r tri i < 0
        · rw [if_pos ht, if_neg]
          rw [survives_iff]
          exact fun h => h.2.2.2 ht
        · rw [if_neg ht, if_pos]
          rw [survives_iff]
          exact ⟨hdet, by unfold FailsU; tauto, hv, ht⟩

theorem extractTriangle_packTri_4 (T : Fin 4 → Triangle) (i : Fin 4) :
    extractTriangle (packTri_4 T) i = T i := rfl

/-- The part of P2 the code keeps: when the batch holds the triangle array, exactly lane
`k` passes the scalar test with `(t, u, v)`, `t` improves on the ray's best distance and
`t` is below the scan's initial `hitT = 3487534`, `cast4` returns 1 with the scalar
result. -/
theorem cast4_single_hit_below_scan_bound (_tri : Fin 4 → Triangle) (r : Ray) (tri : Tri_4)
    (k : Fin 4) (t u v : ℚ) (hsame : ∀ i, extractTriangle tri i = _tri i)
    (hk : scalarMollerTrumbore r (_tri k) = some (t, u, v))
    (hothers : ∀ i, i ≠ k → scalarMollerTrumbore r (_tri i) = none)
    (himp : t < r.t) (hcap : t < 3487534) :
    ∃ res, cast4 _tri r tri = some res ∧ res.status = 1 ∧ res.ray.t = t ∧
      res.ray.intersection =
        { x := (_tri k).p1.x + u * (_tri k).e1.x + v * (_tri k).e2.x
          y := (_tri k).p1.y + u * (_tri k).e1.y + v * (_tri k).e2.y
          z := (_tri k).p1.z + u * (_tri k).e1.z + v * (_tri k).e2.z } ∧
      res.ray.itri = some k.val := by
  have hsurv : ∀ i, Survives r tri i ↔ i = k := by
    intro i
    have h := scalar_eq_lane r tri i
    rw [hsame i] at h
    by_cases hik : i = k
    · subst hik
      rw [hk] at h
      by_cases hs : Survives r tri i
      · simp [hs]
      · rw [if_neg hs] at h
        exact absurd h (by simp)
    · rw [hothers i hik] at h
      by_cases hs : Survives r tri i
      · rw [if_pos hs] at h
        exact absurd h (by simp)
      · simp [hs, hik]
  have hkS : Survives r tri k := (hsurv k).2 rfl
  have hvals := scalar_eq_lane r tri k
  rw [hsame k, hk, if_pos hkS] at hvals
  simp only [Option.some.injEq, Prod.mk.injEq] at hvals
  obtain ⟨ht, hu, hv⟩ := hvals
  have ht0 : 0 ≤ t := by
    have := ((survives_iff r tri k).1 hkS).2.2.2
    rw [ht]
    exact not_lt.1 this
  rcases cast4_survivor_cases _tri r tri ⟨k, hkS⟩ with ⟨hfar, _⟩ | ⟨w, hw, _, _, _, hc⟩
  · have := hfar k hkS
    rw [← ht] at this
    exact absurd hcap (not_lt.2 this)
  · have hwk : w = k := (hsurv w).1 hw
    subst hwk
    have hle : ¬ |cast4_t r tri w| > |r.t| := by
      rw [← ht, abs_of_nonneg ht0, abs_of_nonneg (le_trans ht0 (le_of_lt himp))]
      exact not_lt.2 (le_of_lt himp)
    rw [if_neg hle] at hc
    refine ⟨_, hc, rfl, ht.symm, ?_, rfl⟩
    simp only [cast4_accept, addInPlace, add, scaleNewVec, spu_extract_eq, lane_val,
      Vec.mk.injEq, ← hu, ← hv]
    refine ⟨?_, ?_, ?_⟩ <;> ring

/-- C5, the code at the failing input: the scenario ray started 4000000 away from the
triangle, best distance 10000000, the batch holding the triangle array.  Exactly element
0 passes the scalar test, with `(t, u, v) = (4000000, 1/4, 1/2)`, and `t` improves on the
ray's best distance; `cast4` does not return 1: no lane is selected and its result is
undefined. -/
theorem cast4_departs_from_scalar_at_far_hit :
    (∀ i, extractTriangle scenarioBatch i = scenarioTris i) ∧
      scalarMollerTrumbore (axisRay 4000000 10000000) (scenarioTris 0)
        = some (4000000, 1 / 4, 1 / 2) ∧
      (∀ i, i ≠ 0 → scalarMollerTrumbore (axisRay 4000000 10000000) (scenarioTris i) = none) ∧
      (4000000 : ℚ) < (axisRay 4000000 10000000).t ∧
      cast4 scenarioTris (axisRay 4000000 10000000) scenarioBatch = none := by
  have hs := scenario_survives (axisRay 4000000 10000000) scenarioBatch 4000000 rfl rfl
    scenarioTris_lane0 scenarioTris_zeroArea
  obtain ⟨_, hu, hv, ht⟩ := scenario_lane0 (axisRay 4000000 10000000) scenarioBatch 4000000
    rfl rfl scenarioTris_lane0
  refine ⟨fun i => rfl, ?_, fun i hi => ?_, by norm_num [axisRay],
    axisRay_cast4_far 4000000 10000000 (by norm_num)⟩
  · have h := scalar_eq_lane (axisRay 4000000 10000000) scenarioBatch 0
    rw [if_pos ((hs 0).2 ⟨rfl, by norm_num⟩), hu, hv, ht] at h
    exact h
  · have h := scalar_eq_lane (axisRay 4000000 10000000) scenarioBatch i
    rw [if_neg (fun hc => hi ((hs i).1 hc).1)] at h
    exact h

/-! ## C6 and C7: the distance test of line 138 -/

/-- With nearest valid hit distance `T` below the scan's initial `hitT`, the call ends in
lines 138-152 on a surviving lane at distance `T`. -/
theorem cast4_of_nearest (_tri : Fin 4 → Triangle) (r : Ray) (tri : Tri_4) (T : ℚ)
    (hT : IsNearestHit r tri T) (hcap : T < 3487534) :
    ∃ w : Fin 4, Survives r tri w ∧ cast4_t r tri w = T ∧
      cast4 _tri r tri =
        if |T| > |r.t| then some ⟨2, r, false⟩
        else some ⟨1, cast4_accept r (_tri w) (cast4_u r tri) (cast4_v r tri) w.val T,
          false⟩ := by
  obtain ⟨⟨k, hk, hkT⟩, hmin⟩ := hT
  rcases cast4_survivor_cases _tri r tri ⟨k, hk⟩ with ⟨hfar, _⟩ | ⟨w, hw, _, hwmin, _, hc⟩
  · have := hfar k hk
    rw [hkT] at this
    exact absurd hcap (not_lt.2 this)
  · have hwT : cast4_t r tri w = T :=
      le_antisymm (hkT ▸ hwmin k hk) (hmin w hw)
    rw [hwT] at hc
    exact ⟨w, hw, hwT, hc⟩

theorem nearest_nonneg (r : Ray) (tri : Tri_4) (T : ℚ) (hT : IsNearestHit r tri T) : 0 ≤ T := by
  obtain ⟨⟨k, hk, hkT⟩, _⟩ := hT
  have := ((survives_iff r tri k).1 hk).2.2.2
  rw [← hkT]
  exact not_lt.1 this

theorem scenario_nearest (d best : ℚ) (hd0 : 0 ≤ d) :
    IsNearestHit (axisRay d best) scenarioBatch d := by
  have hs := scenario_survives (axisRay d best) scenarioBatch d rfl rfl
    scenarioTris_lane0 scenarioTris_zeroArea
  have ht := (scenario_lane0 (axisRay d best) scenarioBatch d rfl rfl
    scenarioTris_lane0).2.2.2
  refine ⟨⟨0, (hs 0).2 ⟨rfl, hd0⟩, ht⟩, fun i hi => ?_⟩
  have hi0 : i = 0 := ((hs i).1 hi).1
  subst hi0
  exact le_of_eq ht.symm

/-- C6 as stated fails: the scenario ray whose best distance is exactly 5 meets the
triangle at distance 5; the hit is not strictly nearer, yet `cast4` returns 1, not 2, and
rewrites the ray.  Likewise with best distance -7: the hit at 5 is not below -7, and
`cast4` returns 1, since line 138 compares absolute values. -/
theorem cast4_accepts_equal_distance :
    (cast4 scenarioTris (axisRay 5 5) scenarioBatch = some ⟨1, axisRayHit 5 5, false⟩ ∧
      IsNearestHit (axisRay 5 5) scenarioBatch 5 ∧
      ¬ ((5 : ℚ) < (axisRay 5 5).t) ∧
      axisRayHit 5 5 ≠ axisRay 5 5) ∧
    (cast4 scenarioTris (axisRay 5 (-7)) scenarioBatch
        = some ⟨1, axisRayHit 5 (-7), false⟩ ∧
      ¬ ((axisRayHit 5 (-7)).t ≤ (axisRay 5 (-7)).t)) := by
  refine ⟨⟨axisRay_cast4_hit 5 5 (by norm_num) (by norm_num) (by norm_num),
    scenario_nearest 5 5 (by norm_num), by norm_num [axisRay], ?_⟩,
    axisRay_cast4_hit 5 (-7) (by norm_num) (by norm_num) (by norm_num),
    by norm_num [axisRay, axisRayHit]⟩
  intro h
  have := congrArg Ray.itri h
  simp [axisRayHit, axisRay] at this

/-- C7 as stated fails: the scenario ray whose best distance is -10 lies below the nearest
hit distance 5, yet `cast4` returns 1, not 2, and rewrites the ray: line 138 compares
absolute values. -/
theorem cast4_accepts_below_negative_best :
    IsNearestHit (axisRay 5 (-10)) scenarioBatch 5 ∧
      (axisRay 5 (-10)).t < 5 ∧
      cast4 scenarioTris (axisRay 5 (-10)) scenarioBatch
        = some ⟨1, axisRayHit 5 (-10), false⟩ ∧
      axisRayHit 5 (-10) ≠ axisRay 5 (-10) := by
  refine ⟨scenario_nearest 5 (-10) (by norm_num), by norm_num [axisRay],
    axisRay_cast4_hit 5 (-10) (by norm_num) (by norm_num) (by norm_num), ?_⟩
  intro h
  have := congrArg Ray.itri h
  simp [axisRayHit, axisRay] at this

/-- C7 as amended (P4): for every batch whose nearest valid hit distance `T` is below
3487534 and every ray whose current best distance is below `T` in absolute value,
`cast4` returns 2 and the ray is as before. -/
theorem cast4_rejects_farther_hit (_tri : Fin 4 → Triangle) (r : Ray) (tri : Tri_4) (T : ℚ)
    (hT : IsNearestHit r tri T) (hcap : T < 3487534) (hbelow : |r.t| < T) :
    ∃ res, cast4 _tri r tri = some res ∧ res.status = 2 ∧ res.ray = r := by
  obtain ⟨w, _, _, hc⟩ := cast4_of_nearest _tri r tri T hT hcap
  refine ⟨⟨2, r, false⟩, ?_, rfl, rfl⟩
  rw [hc, if_pos]
  rw [abs_of_nonneg (nearest_nonneg r tri T hT)]
  exact hbelow

/-- C7 as amended, at a concrete call: best distance 4, nearest hit at 5. -/
theorem cast4_rejects_farther_hit_witness :
    IsNearestHit (axisRay 5 4) scenarioBatch 5 ∧ (5 : ℚ) < 3487534 ∧
      |(axisRay 5 4).t| < 5 ∧
      ∃ res, cast4 scenarioTris (axisRay 5 4) scenarioBatch = some res ∧ res.status = 2 ∧
        res.ray = axisRay 5 4 :=
  have hn := scenario_nearest 5 4 (by norm_num)
  have hb : |(axisRay 5 4).t| < 5 := by norm_num [axisRay]
  ⟨hn, by norm_num, hb,
    cast4_rejects_farther_hit scenarioTris (axisRay 5 4) scenarioBatch 5 hn (by norm_num) hb⟩

/-! ## C8: status codes -/

/-- The five ways through `cast4`, by the cumulative failure mask at each checkpoint. -/
theorem cast4_checkpoints (_tri : Fin 4 → Triangle) (r : Ray) (tri : Tri_4) :
    ((∀ i, FailsDet r tri i) ∧ cast4 _tri r tri = some ⟨-1, r, false⟩) ∨
    ((¬ ∀ i, FailsDet r tri i) ∧ (∀ i, FailsDet r tri i ∨ FailsU r tri i) ∧
      cast4 _tri r tri = some ⟨-2, r, false⟩) ∨
    ((¬ ∀ i, FailsDet r tri i ∨ FailsU r tri i) ∧
      (∀ i, (FailsDet r tri i ∨ FailsU r tri i) ∨ FailsV r tri i) ∧
      cast4 _tri r tri = some ⟨-3, r, false⟩) ∨
    ((¬ ∀ i, (FailsDet r tri i ∨ FailsU r tri i) ∨ FailsV r tri i) ∧
      (∀ i, ((FailsDet r tri i ∨ FailsU r tri i) ∨ FailsV r tri i) ∨ FailsT r tri i) ∧
      cast4 _tri r tri = some ⟨-4, r, false⟩) ∨
    ((∃ i, Survives r tri i) ∧
      (cast4 _tri r tri = none ∨
        ∃ res, cast4 _tri r tri = some res ∧ (res.status = 1 ∨ res.status = 2))) := by
  by_cases hA : ∀ i, FailsDet r tri i
  · exact Or.inl ⟨hA, cast4_of_all_det _tri r tri hA⟩
  by_cases hB : ∀ i, FailsDet r tri i ∨ FailsU r tri i
  · exact Or.inr (Or.inl ⟨hA, hB, cast4_of_all_u _tri r tri hA hB⟩)
  by_cases hC : ∀ i, (FailsDet r tri i ∨ FailsU r tri i) ∨ FailsV r tri i
  · exact Or.inr (Or.inr (Or.inl ⟨hB, hC, cast4_of_all_v _tri r tri hB hC⟩))
  by_cases hD : ∀ i, ((FailsDet r tri i ∨ FailsU r tri i) ∨ FailsV r tri i) ∨ FailsT r tri i
  · exact Or.inr (Or.inr (Or.inr (Or.inl ⟨hC, hD, cast4_of_all_t _tri r tri hC hD⟩)))
  refine Or.inr (Or.inr (Or.inr (Or.inr ?_)))
  obtain ⟨i, hi⟩ := not_forall.1 hD
  have hs : ∃ i, Survives r tri i := ⟨i, (survives_iff r tri i).2 (by tauto)⟩
  refine ⟨hs, ?_⟩
  rcases cast4_survivor_cases _tri r tri hs with ⟨_, hn⟩ | ⟨w, _, _, _, _, hc⟩
  · exact Or.inl hn
  · right
    rw [hc]
    by_cases hgt : |cast4_t r tri w| > |r.t|
    · rw [if_pos hgt]
      exact ⟨_, rfl, Or.inr rfl⟩
    · rw [if_neg hgt]
      exact ⟨_, rfl, Or.inl rfl⟩

theorem returns_status {_tri : Fin 4 → Triangle} {r : Ray} {tri : Tri_4} {res : Cast4Result}
    {s : Int} (hc : cast4 _tri r tri = some res) (h : Returns _tri r tri s) :
    res.status = s := by
  obtain ⟨res2, hres, hst⟩ := h
  rw [hc] at hres
  rw [Option.some.inj hres]
  exact hst

theorem returns_of_eq {_tri : Fin 4 → Triangle} {r : Ray} {tri : Tri_4} {s0 : Int} {r0 : Ray}
    {p0 : Bool} {s : Int} (hc : cast4 _tri r tri = some ⟨s0, r0, p0⟩)
    (h : Returns _tri r tri s) : s0 = s :=
  returns_status hc h

theorem not_returns_of_none {_tri : Fin 4 → Triangle} {r : Ray} {tri : Tri_4}
    (hc : cast4 _tri r tri = none) (s : Int) : ¬ Returns _tri r tri s := by
  rintro ⟨res, hres, _⟩
  rw [hc] at hres
  exact absurd hres (by simp)

/-- The part of C8 the code keeps: the negative codes follow "latest checkpoint wins" on
the cumulative mask, a positive status needs a lane that failed none of the four tests,
and such a lane with hit distance below 3487534 gives a positive status. -/
theorem cast4_status_by_checkpoint (_tri : Fin 4 → Triangle) (r : Ray) (tri : Tri_4) :
    (Returns _tri r tri (-1) ↔ ∀ i, FailsDet r tri i) ∧
    (Returns _tri r tri (-2) ↔
      (¬ ∀ i, FailsDet r tri i) ∧ ∀ i, FailsDet r tri i ∨ FailsU r tri i) ∧
    (Returns _tri r tri (-3) ↔
      (¬ ∀ i, FailsDet r tri i ∨ FailsU r tri i) ∧
        ∀ i, (FailsDet r tri i ∨ FailsU r tri i) ∨ FailsV r tri i) ∧
    (Returns _tri r tri (-4) ↔
      (¬ ∀ i, (FailsDet r tri i ∨ FailsU r tri i) ∨ FailsV r tri i) ∧
        ∀ i, ((FailsDet r tri i ∨ FailsU r tri i) ∨ FailsV r tri i) ∨ FailsT r tri i) ∧
    (Returns _tri r tri 1 ∨ Returns _tri r tri 2 →
      ∃ i, ¬ FailsDet r tri i ∧ ¬ FailsU r tri i ∧ ¬ FailsV r tri i ∧ ¬ FailsT r tri i) ∧
    ((∃ i, (¬ FailsDet r tri i ∧ ¬ FailsU r tri i ∧ ¬ FailsV r tri i ∧ ¬ FailsT r tri i) ∧
        cast4_t r tri i < 3487534) →
      Returns _tri r tri 1 ∨ Returns _tri r tri 2) := by
  have key := cast4_checkpoints _tri r tri
  refine ⟨⟨?_, ?_⟩, ⟨?_, ?_⟩, ⟨?_, ?_⟩, ⟨?_, ?_⟩, ?_, ?_⟩
  · intro h
    rcases key with ⟨hA, _⟩ | ⟨_, _, hc⟩ | ⟨_, _, hc⟩ | ⟨_, _, hc⟩ |
      ⟨_, hc | ⟨res2, hc, h12⟩⟩
    · exact hA
    · exact absurd (returns_of_eq hc h) (by decide)
    · exact absurd (returns_of_eq hc h) (by decide)
    · exact absurd (returns_of_eq hc h) (by decide)
    · exact absurd h (not_returns_of_none hc _)
    · have := returns_status hc h
      omega
  · intro hA
    exact ⟨_, cast4_of_all_det _tri r tri hA, rfl⟩
  · intro h
    rcases key with ⟨_, hc⟩ | ⟨hA, hB, _⟩ | ⟨_, _, hc⟩ | ⟨_, _, hc⟩ |
      ⟨_, hc | ⟨res2, hc, h12⟩⟩
    · exact absurd (returns_of_eq hc h) (by decide)
    · exact ⟨hA, hB⟩
    · exact absurd (returns_of_eq hc h) (by decide)
    · exact absurd (returns_of_eq hc h) (by decide)
    · exact absurd h (not_returns_of_none hc _)
    · have := returns_status hc h
      omega
  · rintro ⟨hA, hB⟩
    exact ⟨_, cast4_of_all_u _tri r tri hA hB, rfl⟩
  · intro h
    rcases key with ⟨_, hc⟩ | ⟨_, _, hc⟩ | ⟨hB, hC, _⟩ | ⟨_, _, hc⟩ |
      ⟨_, hc | ⟨res2, hc, h12⟩⟩
    · exact absurd (returns_of_eq hc h) (by decide)
    · exact absurd (returns_of_eq hc h) (by decide)
    · exact ⟨hB, hC⟩
    · exact absurd (returns_of_eq hc h) (by decide)
    · exact absurd h (not_returns_of_none hc _)
    · have := returns_status hc h
      omega
  · rintro ⟨hB, hC⟩
    exact ⟨_, cast4_of_all_v _tri r tri hB hC, rfl⟩
  · intro h
    rcases key with ⟨_, hc⟩ | ⟨_, _, hc⟩ | ⟨_, _, hc⟩ | ⟨hC, hD, _⟩ |
      ⟨_, hc | ⟨res2, hc, h12⟩⟩
    · exact absurd (returns_of_eq hc h) (by decide)
    · exact absurd (returns_of_eq hc h) (by decide)
    · exact absurd (returns_of_eq hc h) (by decide)
    · exact ⟨hC, hD⟩
    · exact absurd h (not_returns_of_none hc _)
    · have := returns_status hc h
      omega
  · rintro ⟨hC, hD⟩
    exact ⟨_, cast4_of_all_t _tri r tri hC hD, rfl⟩
  · intro hpos
    unfold Returns at hpos
    have hex : ∃ res, cast4 _tri r tri = some res ∧ (res.status = 1 ∨ res.status = 2) := by
      rcases hpos with ⟨res, hres, hst⟩ | ⟨res, hres, hst⟩
      · exact ⟨res, hres, Or.inl hst⟩
      · exact ⟨res, hres, Or.inr hst⟩
    obtain ⟨res, hres, hst⟩ := hex
    rcases cast4_result_cases _tri r tri res hres with ⟨_, _, _, hneg⟩ | ⟨w, hw, _⟩
    · rcases hst with h1 | h2
      · rw [h1] at hneg
        exact absurd hneg (by decide)
      · rw [h2] at hneg
        exact absurd hneg (by decide)
    · exact ⟨w, (survives_iff r tri w).1 hw⟩
  · rintro ⟨i, hi, hlt⟩
    have hiS : Survives r tri i := (survives_iff r tri i).2 hi
    rcases cast4_survivor_cases _tri r tri ⟨i, hiS⟩ with ⟨hfar, _⟩ | ⟨w, _, _, _, _, hc⟩
    · exact absurd hlt (not_lt.2 (hfar i hiS))
    · unfold Returns
      rw [hc]
      by_cases hgt : |cast4_t r tri w| > |r.t|
      · rw [if_pos hgt]
        exact Or.inr ⟨_, rfl, rfl⟩
      · rw [if_neg hgt]
        exact Or.inl ⟨_, rfl, rfl⟩

/-- C8, the code at the failing input: the scenario ray started exactly 3487534 away from
the triangle.  Lane 0 failed none of the four tests, so not every lane failed, yet no
status 1 or 2 is returned: `tempT < hitT` is false in lane 0, `hitIndex` is never
assigned, and the call has no defined result. -/
theorem cast4_no_positive_status_at_scan_bound :
    (∃ i, ¬ FailsDet (axisRay 3487534 10000000) scenarioBatch i ∧
        ¬ FailsU (axisRay 3487534 10000000) scenarioBatch i ∧
        ¬ FailsV (axisRay 3487534 10000000) scenarioBatch i ∧
        ¬ FailsT (axisRay 3487534 10000000) scenarioBatch i) ∧
      ¬ Returns scenarioTris (axisRay 3487534 10000000) scenarioBatch 1 ∧
      ¬ Returns scenarioTris (axisRay 3487534 10000000) scenarioBatch 2 ∧
      cast4 scenarioTris (axisRay 3487534 10000000) scenarioBatch = none := by
  have hs := scenario_survives (axisRay 3487534 10000000) scenarioBatch 3487534 rfl rfl
    scenarioTris_lane0 scenarioTris_zeroArea
  have hn := axisRay_cast4_far 3487534 10000000 (le_refl _)
  exact ⟨⟨0, (survives_iff _ _ 0).1 ((hs 0).2 ⟨rfl, by norm_num⟩)⟩,
    not_returns_of_none hn 1, not_returns_of_none hn 2, hn⟩

/-! ## C9 and C10: the scenario of the specification -/

/-- C9: for a ray with origin (0,0,-5), direction (0,0,1) and best distance above 5, and a
batch with the scenario triangle in lane 0 and zero-area triangles in lanes 1 to 3,
`cast4` returns 1 and sets the ray's `t` to exactly 5. -/
theorem cast4_scenario_status_and_distance (_tri : Fin 4 → Triangle) (r : Ray) (tri : Tri_4)
    (ho : r.origin = { x := 0, y := 0, z := -5 }) (hd : r.ray = { x := 0, y := 0, z := 1 })
    (hbest : 5 < r.t) (h0 : extractTriangle tri 0 = scenarioTriangle)
    (hz : ∀ i, i ≠ 0 → ZeroArea tri i) :
    ∃ res, cast4 _tri r tri = some res ∧ res.status = 1 ∧ res.ray.t = 5 := by
  have hle : ¬ |(5 : ℚ)| > |r.t| := by
    rw [abs_of_nonneg (by norm_num : (0 : ℚ) ≤ 5),
      abs_of_nonneg (le_trans (by norm_num : (0 : ℚ) ≤ 5) (le_of_lt hbest))]
    exact not_lt.2 (le_of_lt hbest)
  have hc := scenario_cast4 _tri r tri 5 ho hd h0 hz (by norm_num) (by norm_num)
  rw [if_neg hle] at hc
  exact ⟨_, hc, rfl, rfl⟩

/-- C9 at a concrete call: best distance 100, degenerate triangles at the origin in lanes
1 to 3. -/
theorem cast4_scenario_status_and_distance_witness :
    (axisRay 5 100).origin = { x := 0, y := 0, z := -5 } ∧
      (axisRay 5 100).ray = { x := 0, y := 0, z := 1 } ∧
      5 < (axisRay 5 100).t ∧
      extractTriangle scenarioBatch 0 = scenarioTriangle ∧
      (∀ i, i ≠ 0 → ZeroArea scenarioBatch i) ∧
      ∃ res, cast4 scenarioTris (axisRay 5 100) scenarioBatch = some res ∧ res.status = 1 ∧
        res.ray.t = 5 :=
  have hb : 5 < (axisRay 5 100).t := by norm_num [axisRay]
  ⟨rfl, rfl, hb, scenarioTris_lane0, scenarioTris_zeroArea,
    cast4_scenario_status_and_distance scenarioTris (axisRay 5 100) scenarioBatch rfl rfl hb
      scenarioTris_lane0 scenarioTris_zeroArea⟩

/-- C10 as stated fails: in the scenario, with best distance 100, the intersection point
`cast4` writes is (0, 0, 0), which is not (0, -1/3, 0). -/
theorem cast4_scenario_intersection_not_centroid :
    cast4 scenarioTris (axisRay 5 100) scenarioBatch = some ⟨1, axisRayHit 5 100, false⟩ ∧
      (axisRayHit 5 100).intersection = { x := 0, y := 0, z := 0 } ∧
      (axisRayHit 5 100).intersection ≠ { x := 0, y := -1 / 3, z := 0 } := by
  refine ⟨axisRay_cast4_hit 5 100 (by norm_num) (by norm_num) (by norm_num), rfl, ?_⟩
  intro h
  have := congrArg Vec.y h
  norm_num [axisRayHit] at this

/-- C10 as amended: for a ray with origin (0,0,-5), direction (0,0,1) and best distance
above 5, a batch with the scenario triangle in lane 0 and zero-area triangles in lanes 1
to 3, and a triangle array holding the scenario triangle in element 0, the intersection
point `cast4` writes into the ray is (0, 0, 0), the point `origin + 5*direction`. -/
theorem cast4_scenario_intersection (_tri : Fin 4 → Triangle) (r : Ray) (tri : Tri_4)
    (ho : r.origin = { x := 0, y := 0, z := -5 }) (hd : r.ray = { x := 0, y := 0, z := 1 })
    (hbest : 5 < r.t) (h0 : extractTriangle tri 0 = scenarioTriangle)
    (hz : ∀ i, i ≠ 0 → ZeroArea tri i) (harr : _tri 0 = scenarioTriangle) :
    ∃ res, cast4 _tri r tri = some res ∧ res.status = 1 ∧
      res.ray.intersection = { x := 0, y := 0, z := 0 } ∧
      res.ray.intersection =
        { x := r.origin.x + 5 * r.ray.x, y := r.origin.y + 5 * r.ray.y,
          z := r.origin.z + 5 * r.ray.z } := by
  have hle : ¬ |(5 : ℚ)| > |r.t| := by
    rw [abs_of_nonneg (by norm_num : (0 : ℚ) ≤ 5),
      abs_of_nonneg (le_trans (by norm_num : (0 : ℚ) ≤ 5) (le_of_lt hbest))]
    exact not_lt.2 (le_of_lt hbest)
  obtain ⟨_, hu, hv, _⟩ := scenario_lane0 r tri 5 ho hd h0
  have hc := scenario_cast4 _tri r tri 5 ho hd h0 hz (by norm_num) (by norm_num)
  rw [if_neg hle] at hc
  refine ⟨_, hc, rfl, ?_, ?_⟩
  · simp only [cast4_accept, spu_extract_eq, lane, Nat.zero_mod, Fin.zero_eta, hu, hv, harr,
      scenarioTriangle, scaleNewVec, add, addInPlace]
    norm_num
  · simp only [cast4_accept, spu_extract_eq, lane, Nat.zero_mod, Fin.zero_eta, hu, hv, harr,
      scenarioTriangle, scaleNewVec, add, addInPlace, ho, hd]
    norm_num

/-- C10 as amended, at a concrete call: best distance 100, degenerate triangles at the
origin in lanes 1 to 3. -/
theorem cast4_scenario_intersection_witness :
    (axisRay 5 100).origin = { x := 0, y := 0, z := -5 } ∧
      (axisRay 5 100).ray = { x := 0, y := 0, z := 1 } ∧
      5 < (axisRay 5 100).t ∧
      extractTriangle scenarioBatch 0 = scenarioTriangle ∧
      (∀ i, i ≠ 0 → ZeroArea scenarioBatch i) ∧
      scenarioTris 0 = scenarioTriangle ∧
      ∃ res, cast4 scenarioTris (axisRay 5 100) scenarioBatch = some res ∧ res.status = 1 ∧
        res.ray.intersection = { x := 0, y := 0, z := 0 } ∧
        res.ray.intersection =
          { x := (axisRay 5 100).origin.x + 5 * (axisRay 5 100).ray.x
            y := (axisRay 5 100).origin.y + 5 * (axisRay 5 100).ray.y
            z := (axisRay 5 100).origin.z + 5 * (axisRay 5 100).ray.z } :=
  have hb : 5 < (axisRay 5 100).t := by norm_num [axisRay]
  ⟨rfl, rfl, hb, scenarioTris_lane0, scenarioTris_zeroArea, rfl,
    cast4_scenario_intersection scenarioTris (axisRay 5 100) scenarioBatch rfl rfl hb
      scenarioTris_lane0 scenarioTris_zeroArea rfl⟩

/-! ## C11, C12, C13: the two selection branches -/

/-- The `else` branch of line 108 is never taken: byte 0 of `spu_splats(gather)` is zero
for every gathered word, so `valid` is 4. -/
theorem not_takesBitCountBranch (r : Ray) (tri : Tri_4) : ¬ TakesBitCountBranch r tri := by
  rintro ⟨_, h3⟩
  rw [cast4_valid_eq _ (gather_lt_16 _)] at h3
  exact absurd h3 (by decide)

/-- Whenever the selection is reached, it is the linear scan that runs. -/
theorem takesLinearScan_iff (r : Ray) (tri : Tri_4) :
    TakesLinearScan r tri ↔ ∃ i, Survives r tri i := by
  unfold TakesLinearScan
  rw [gather_fail_ne_15, cast4_valid_eq _ (gather_lt_16 _)]
  simp

/-- The lane the selection ends on, when it ends on one, is one of 0..3, has failure bit
zero in the final mask and has the selected distance. -/
theorem cast4_selected_lane_survives (r : Ray) (tri : Tri_4) (T : ℚ) (k : Nat)
    (h : cast4_select (cast4_fail r tri) (cast4_t r tri)
      (spu_extract (spu_gather (cast4_fail r tri)) 0) = (T, some k)) :
    k < 4 ∧ spu_extract (cast4_fail r tri) k = 0 ∧ T = spu_extract (cast4_t r tri) k := by
  rw [cast4_select_eq_scan] at h
  rcases cast4_scan_spec (cast4_fail r tri) (cast4_t r tri) with
    ⟨hst, _⟩ | ⟨w, hst, hfw, _, _⟩
  · rw [hst] at h
    simp at h
  · rw [hst] at h
    simp only [Prod.mk.injEq, Option.some.injEq] at h
    obtain ⟨hT, hk⟩ := h
    subst hk
    refine ⟨w.isLt, ?_, ?_⟩
    · rw [spu_extract_eq, lane_val]
      exact (fail_ne_allOnes_iff r tri w).1 hfw
    · rw [spu_extract_eq, lane_val]
      exact hT.symm

/-- On every call with a defined result the diagnostic of line 136 stays silent. -/
theorem cast4_diagnostic_silent (_tri : Fin 4 → Triangle) (r : Ray) (tri : Tri_4)
    (res : Cast4Result) (h : cast4 _tri r tri = some res) : res.printed = false := by
  rcases cast4_result_cases _tri r tri res h with
    ⟨_, _, hp, _⟩ | ⟨w, _, _, _, _, ⟨_, hres⟩ | ⟨_, hres⟩⟩
  · exact hp
  · rw [hres]
  · rw [hres]

theorem axisRay_scan_far (d best : ℚ) (hd1 : 3487534 ≤ d) :
    cast4_scan (cast4_fail (axisRay d best) scenarioBatch)
      (cast4_t (axisRay d best) scenarioBatch) = (3487534, none) := by
  have hs := scenario_survives (axisRay d best) scenarioBatch d rfl rfl
    scenarioTris_lane0 scenarioTris_zeroArea
  have ht := (scenario_lane0 (axisRay d best) scenarioBatch d rfl rfl
    scenarioTris_lane0).2.2.2
  rcases cast4_scan_spec (cast4_fail (axisRay d best) scenarioBatch)
    (cast4_t (axisRay d best) scenarioBatch) with ⟨hst, _⟩ | ⟨w, _, hfw, htw, _⟩
  · exact hst
  · have hw0 : w = 0 := ((hs w).1 ((fail_ne_allOnes_iff _ _ w).1 hfw)).1
    subst hw0
    rw [ht] at htw
    exact absurd htw (not_lt.2 hd1)

/-- C12, the code at the failing input: the scenario ray started 5000000 away from the
triangle.  Lane 0 has failure bit zero in the final mask, so the call reaches lane
selection, but the selection ends with `hitIndex` never assigned (and `hitT` still
3487534): the selected lane index is not defined, and line 136 reads it all the same. -/
theorem cast4_selected_index_undefined_at_far_hit :
    Survives (axisRay 5000000 10000000) scenarioBatch 0 ∧
      spu_extract (spu_gather (cast4_fail (axisRay 5000000 10000000) scenarioBatch)) 0 ≠ 15 ∧
      cast4_select (cast4_fail (axisRay 5000000 10000000) scenarioBatch)
        (cast4_t (axisRay 5000000 10000000) scenarioBatch)
        (spu_extract (spu_gather (cast4_fail (axisRay 5000000 10000000) scenarioBatch)) 0)
          = (3487534, none) ∧
      cast4 scenarioTris (axisRay 5000000 10000000) scenarioBatch = none := by
  have hs := scenario_survives (axisRay 5000000 10000000) scenarioBatch 5000000 rfl rfl
    scenarioTris_lane0 scenarioTris_zeroArea
  have h0 : Survives (axisRay 5000000 10000000) scenarioBatch 0 :=
    (hs 0).2 ⟨rfl, by norm_num⟩
  refine ⟨h0, (gather_fail_ne_15 _ _).2 ⟨0, h0⟩, ?_,
    axisRay_cast4_far 5000000 10000000 (by norm_num)⟩
  rw [cast4_select_eq_scan]
  exact axisRay_scan_far 5000000 10000000 (by norm_num)

/-- C13, the code at the failing input: the scenario with best distance 100.  Exactly one
lane, lane 0, has failure bit zero in the final mask, yet `valid` is 4, the test
`valid != 3` of line 108 succeeds, and the linear scan runs, not the bit-counting
branch. -/
theorem cast4_scans_with_one_survivor :
    (∀ i, Survives (axisRay 5 100) scenarioBatch i ↔ i = 0) ∧
      cast4_valid (spu_extract (spu_gather (cast4_fail (axisRay 5 100) scenarioBatch)) 0) = 4 ∧
      TakesLinearScan (axisRay 5 100) scenarioBatch ∧
      ¬ TakesBitCountBranch (axisRay 5 100) scenarioBatch := by
  have hs := scenario_survives (axisRay 5 100) scenarioBatch 5 rfl rfl
    scenarioTris_lane0 scenarioTris_zeroArea
  have h0 : Survives (axisRay 5 100) scenarioBatch 0 := (hs 0).2 ⟨rfl, by norm_num⟩
  refine ⟨fun i => ?_, cast4_valid_eq _ (gather_lt_16 _),
    (takesLinearScan_iff _ _).2 ⟨0, h0⟩, not_takesBitCountBranch _ _⟩
  rw [hs i]
  constructor
  · exact fun h => h.1
  · exact fun h => ⟨h, by norm_num⟩

/-- Were the bit-counting branch taken on a mask with a single lane with failure bit zero,
`31 - cntlz` would give index 2 for lane 0 (gathered word 0111) and index 3 for lanes 1, 2
and 3 (gathered words 1011, 1101, 1110): the lane with failure bit zero only when that is
lane 3. -/
theorem bitCount_formula_on_sole_survivor :
    spu_extract (spu_gather ![0, allOnes, allOnes, allOnes]) 0 = 7 ∧
      toUInt32 (31 - ((spu_extract (spu_cntlz (spu_splats 7)) 0 : Nat) : Int)) = 2 ∧
      spu_extract (spu_gather ![allOnes, 0, allOnes, allOnes]) 0 = 11 ∧
      toUInt32 (31 - ((spu_extract (spu_cntlz (spu_splats 11)) 0 : Nat) : Int)) = 3 ∧
      spu_extract (spu_gather ![allOnes, allOnes, 0, allOnes]) 0 = 13 ∧
      toUInt32 (31 - ((spu_extract (spu_cntlz (spu_splats 13)) 0 : Nat) : Int)) = 3 ∧
      spu_extract (spu_gather ![allOnes, allOnes, allOnes, 0]) 0 = 14 ∧
      toUInt32 (31 - ((spu_extract (spu_cntlz (spu_splats 14)) 0 : Nat) : Int)) = 3 := by
  refine ⟨?_, ?_, ?_, ?_, ?_, ?_, ?_, ?_⟩
  · simp [spu_extract, spu_gather, allOnes]
  · decide
  · simp [spu_extract, spu_gather, allOnes]
  · decide
  · simp [spu_extract, spu_gather, allOnes]
  · decide
  · simp [spu_extract, spu_gather, allOnes]
  · decide

/-! ## C14: cast4 without the early returns -/

theorem noEarlyExit_of_survivor (_tri : Fin 4 → Triangle) (r : Ray) (tri : Tri_4)
    (h : ∃ i, Survives r tri i) : cast4_noEarlyExit _tri r tri = cast4 _tri r tri := by
  rw [cast4_of_survivor _tri r tri h]
  have hg := (gather_fail_ne_15 r tri).2 h
  unfold cast4_noEarlyExit
  simp only [hg, ne_eq, not_false_eq_true, if_true, cast4_select_eq_scan]

theorem noEarlyExit_of_no_survivor (_tri : Fin 4 → Triangle) (r : Ray) (tri : Tri_4)
    (h : ¬ ∃ i, Survives r tri i) : cast4_noEarlyExit _tri r tri = some ⟨-4, r, false⟩ := by
  have hg : spu_extract (spu_gather (cast4_fail r tri)) 0 = 15 := by
    by_contra hc
    exact h ((gather_fail_ne_15 r tri).1 hc)
  unfold cast4_noEarlyExit
  simp [hg]

theorem pointBatch_zeroArea (i : Fin 4) : ZeroArea pointBatch i := by
  simp [ZeroArea, cross4, pointBatch, packTri_4, pointTris, pointTriangle]

theorem pointBatch_no_survivor (r : Ray) : ¬ ∃ i, Survives r pointBatch i := by
  rintro ⟨i, hi⟩
  exact ((survives_iff r pointBatch i).1 hi).1
    (failsDet_of_zeroArea r pointBatch i (pointBatch_zeroArea i))

/-- C14 as stated fails: on a batch of four degenerate triangles every lane fails the
determinant test; `cast4` returns -1 at checkpoint A, the variant without the early
returns runs on to the last test and returns -4.  The status codes differ. -/
theorem cast4_noEarlyExit_status_differs :
    cast4 pointTris (axisRay 5 100) pointBatch = some ⟨-1, axisRay 5 100, false⟩ ∧
      cast4_noEarlyExit pointTris (axisRay 5 100) pointBatch
        = some ⟨-4, axisRay 5 100, false⟩ ∧
      cast4_noEarlyExit pointTris (axisRay 5 100) pointBatch
        ≠ cast4 pointTris (axisRay 5 100) pointBatch := by
  have h1 : cast4 pointTris (axisRay 5 100) pointBatch = some ⟨-1, axisRay 5 100, false⟩ :=
    cast4_of_all_det _ _ _
      (fun i => failsDet_of_zeroArea _ pointBatch i (pointBatch_zeroArea i))
  have h4 := noEarlyExit_of_no_survivor pointTris (axisRay 5 100) pointBatch
    (pointBatch_no_survivor _)
  refine ⟨h1, h4, ?_⟩
  rw [h1, h4]
  intro h
  have := congrArg Cast4Result.status (Option.some.inj h)
  exact absurd this (by decide)

/-- C14 as amended: for every input the variant of `cast4` without the early returns at
checkpoints A, B and C gives the result of `cast4` with the status -1, -2 or -3 replaced
by -4: the same final ray always, the same status whenever `cast4` returns 1, 2 or -4,
and no defined result exactly when `cast4` has none. -/
theorem cast4_noEarlyExit_eq (_tri : Fin 4 → Triangle) (r : Ray) (tri : Tri_4) :
    cast4_noEarlyExit _tri r tri = Option.map lateStatus (cast4 _tri r tri) := by
  by_cases hs : ∃ i, Survives r tri i
  · rw [noEarlyExit_of_survivor _tri r tri hs]
    rcases cast4_survivor_cases _tri r tri hs with ⟨_, hn⟩ | ⟨w, _, _, _, _, hc⟩
    · rw [hn]
      rfl
    · rw [hc]
      by_cases hgt : |cast4_t r tri w| > |r.t|
      · rw [if_pos hgt]
        rfl
      · rw [if_neg hgt]
        rfl
  · rw [noEarlyExit_of_no_survivor _tri r tri hs]
    obtain ⟨s, hc, hneg⟩ := cast4_of_no_survivor _tri r tri hs
    rw [hc]
    rcases hneg with h | h | h | h <;> subst h <;> rfl

/-! ## C15: boundary values -/

theorem plane_lane0 (r : Ray) (tri : Tri_4) (hd : r.ray = { x := 0, y := 0, z := 1 })
    (h0 : extractTriangle tri 0 = scenarioTriangle) :
    cast4_det r tri 0 = -4 ∧ cast4_u r tri 0 = (2 * r.origin.x - r.origin.y + 1) / 4 ∧
      cast4_v r tri 0 = (r.origin.y + 1) / 2 ∧ cast4_t r tri 0 = -r.origin.z := by
  simp only [extractTriangle, scenarioTriangle, Triangle.mk.injEq, Vec.mk.injEq] at h0
  obtain ⟨⟨p1x, p1y, p1z⟩, ⟨e1x, e1y, e1z⟩, ⟨e2x, e2y, e2z⟩⟩ := h0
  have hdet : cast4_det r tri 0 = -4 := by
    simp only [cast4_det, cast4_p, dot4, cross1_4, hd, e1x, e1y, e1z, e2x, e2y, e2z]
    norm_num
  have hf : cast4_f r tri 0 = -(1 / 4) := by
    simp only [cast4_f, recipf4, cast4_a, spu_sel, cast4_failA, spu_cmpeq, hdet, zeroes,
      spu_splats]
    norm_num
  refine ⟨hdet, ?_, ?_, ?_⟩
  · simp only [cast4_u, spu_mul, hf, dot4, cast4_s, sub4, vec1to4, cast4_p, cross1_4, hd,
      p1x, p1y, p1z, e2x, e2y, e2z]
    ring
  · simp only [cast4_v, spu_mul, hf, dot4, cast4_q, cross4, cast4_s, sub4, vec1to4, hd,
      p1x, p1y, p1z, e1x, e1y, e1z]
    ring
  · simp only [cast4_t, spu_mul, hf, dot4, cast4_q, cross4, cast4_s, sub4, vec1to4,
      p1x, p1y, p1z, e1x, e1y, e1z, e2x, e2y, e2z]
    ring

theorem fail_eq_allOnes_iff (r : Ray) (tri : Tri_4) (i : Fin 4) :
    cast4_fail r tri i = allOnes ↔ ¬ Survives r tri i := by
  rw [← fail_ne_allOnes_iff]
  exact not_not.symm

/-- C15: in every lane the comparisons are strict, so a lane with `u` exactly 0 or exactly
1 is not marked by the `u` test, one with `v` exactly 0 or `u + v` exactly 1 not by the
corresponding comparison of the `v` test, one with `t` exactly 0 not by the `t` test; the
final failure bit is set exactly on zero determinant, `u < 0`, `u > 1`, `v < 0`,
`u + v > 1` or `t < 0`; and it is clear exactly when the scalar Möller-Trumbore test on the
lane's triangle hits, set exactly when it misses. -/
theorem cast4_boundaries_inclusive (r : Ray) (tri : Tri_4) (i : Fin 4) :
    (cast4_u r tri i = 0 ∨ cast4_u r tri i = 1 →
      spu_or (spu_cmpgt (cast4_u r tri) ones) (spu_cmpgt zeroes (cast4_u r tri)) i = 0) ∧
    (cast4_v r tri i = 0 → spu_cmpgt zeroes (cast4_v r tri) i = 0) ∧
    (cast4_u r tri i + cast4_v r tri i = 1 →
      spu_cmpgt (spu_add (cast4_u r tri) (cast4_v r tri)) ones i = 0) ∧
    (cast4_t r tri i = 0 → spu_cmpgt zeroes (cast4_t r tri) i = 0) ∧
    (cast4_fail r tri i = allOnes ↔
      cast4_det r tri i = 0 ∨ cast4_u r tri i < 0 ∨ cast4_u r tri i > 1 ∨
        cast4_v r tri i < 0 ∨ cast4_u r tri i + cast4_v r tri i > 1 ∨ cast4_t r tri i < 0) ∧
    (cast4_fail r tri i = 0 ↔
      ∃ tuv, scalarMollerTrumbore r (extractTriangle tri i) = some tuv) ∧
    (cast4_fail r tri i = allOnes ↔
      scalarMollerTrumbore r (extractTriangle tri i) = none) := by
  refine ⟨?_, ?_, ?_, ?_, ?_, ?_, ?_⟩
  · rintro (h | h) <;> simp [spu_or, spu_cmpgt, ones, zeroes, spu_splats, h]
  · intro h
    simp [spu_cmpgt, zeroes, spu_splats, h]
  · intro h
    simp [spu_cmpgt, spu_add, ones, spu_splats, h]
  · intro h
    simp [spu_cmpgt, zeroes, spu_splats, h]
  · rw [fail_eq_allOnes_iff, survives_iff]
    unfold FailsDet FailsU FailsV FailsT
    constructor
    · intro h
      by_contra hc
      exact h (by tauto)
    · intro h hc
      tauto
  · have h := scalar_eq_lane r tri i
    constructor
    · intro hs
      have hs2 : Survives r tri i := hs
      rw [if_pos hs2] at h
      exact ⟨_, h⟩
    · rintro ⟨tuv, htuv⟩
      by_contra hs
      have hs2 : ¬ Survives r tri i := hs
      rw [if_neg hs2, htuv] at h
      exact absurd h (by simp)
  · have h := scalar_eq_lane r tri i
    rw [fail_eq_allOnes_iff]
    constructor
    · intro hs
      rw [if_neg hs] at h
      exact h
    · intro hn hs
      rw [if_pos hs, hn] at h
      exact absurd h (by simp)

/-- C15 at concrete lanes: the scenario triangle met at its vertex `p1` from a ray
starting on it (`u = 0`, `v = 0`, `t = 0`) and at its vertex `p2` (`u = 1`, `v = 0`,
`u + v = 1`); no comparison marks lane 0, and its final failure bit is zero in both. -/
theorem cast4_boundaries_inclusive_witness :
    (cast4_u (planeRay (-1) (-1) 0 100) scenarioBatch 0 = 0 ∧
      spu_or (spu_cmpgt (cast4_u (planeRay (-1) (-1) 0 100) scenarioBatch) ones)
        (spu_cmpgt zeroes (cast4_u (planeRay (-1) (-1) 0 100) scenarioBatch)) 0 = 0) ∧
    (cast4_u (planeRay 1 (-1) (-5) 100) scenarioBatch 0 = 1 ∧
      spu_or (spu_cmpgt (cast4_u (planeRay 1 (-1) (-5) 100) scenarioBatch) ones)
        (spu_cmpgt zeroes (cast4_u (planeRay 1 (-1) (-5) 100) scenarioBatch)) 0 = 0) ∧
    (cast4_v (planeRay (-1) (-1) 0 100) scenarioBatch 0 = 0 ∧
      spu_cmpgt zeroes (cast4_v (planeRay (-1) (-1) 0 100) scenarioBatch) 0 = 0) ∧
    (cast4_u (planeRay 1 (-1) (-5) 100) scenarioBatch 0
        + cast4_v (planeRay 1 (-1) (-5) 100) scenarioBatch 0 = 1 ∧
      spu_cmpgt (spu_add (cast4_u (planeRay 1 (-1) (-5) 100) scenarioBatch)
        (cast4_v (planeRay 1 (-1) (-5) 100) scenarioBatch)) ones 0 = 0) ∧
    (cast4_t (planeRay (-1) (-1) 0 100) scenarioBatch 0 = 0 ∧
      spu_cmpgt zeroes (cast4_t (planeRay (-1) (-1) 0 100) scenarioBatch) 0 = 0) ∧
    cast4_fail (planeRay (-1) (-1) 0 100) scenarioBatch 0 ≠ allOnes ∧
    cast4_fail (planeRay 1 (-1) (-5) 100) scenarioBatch 0 ≠ allOnes :=
  have hA := plane_lane0 (planeRay (-1) (-1) 0 100) scenarioBatch rfl scenarioTris_lane0
  have hB := plane_lane0 (planeRay 1 (-1) (-5) 100) scenarioBatch rfl scenarioTris_lane0
  have huA : cast4_u (planeRay (-1) (-1) 0 100) scenarioBatch 0 = 0 := by
    rw [hA.2.1]
    norm_num [planeRay]
  have hvA : cast4_v (planeRay (-1) (-1) 0 100) scenarioBatch 0 = 0 := by
    rw [hA.2.2.1]
    norm_num [planeRay]
  have htA : cast4_t (planeRay (-1) (-1) 0 100) scenarioBatch 0 = 0 := by
    rw [hA.2.2.2]
    norm_num [planeRay]
  have huB : cast4_u (planeRay 1 (-1) (-5) 100) scenarioBatch 0 = 1 := by
    rw [hB.2.1]
    norm_num [planeRay]
  have hvB : cast4_v (planeRay 1 (-1) (-5) 100) scenarioBatch 0 = 0 := by
    rw [hB.2.2.1]
    norm_num [planeRay]
  have htB : cast4_t (planeRay 1 (-1) (-5) 100) scenarioBatch 0 = 5 := by
    rw [hB.2.2.2]
    norm_num [planeRay]
  have huvB : cast4_u (planeRay 1 (-1) (-5) 100) scenarioBatch 0
      + cast4_v (planeRay 1 (-1) (-5) 100) scenarioBatch 0 = 1 := by
    rw [huB, hvB]
    norm_num
  have hfA : cast4_fail (planeRay (-1) (-1) 0 100) scenarioBatch 0 ≠ allOnes := by
    intro hc
    have := (cast4_boundaries_inclusive (planeRay (-1) (-1) 0 100) scenarioBatch 0).2.2.2.2.1.1
      hc
    rw [hA.1, huA, hvA, htA] at this
    norm_num at this
  have hfB : cast4_fail (planeRay 1 (-1) (-5) 100) scenarioBatch 0 ≠ allOnes := by
    intro hc
    have := (cast4_boundaries_inclusive (planeRay 1 (-1) (-5) 100) scenarioBatch 0).2.2.2.2.1.1
      hc
    rw [hB.1, huB, hvB, htB] at this
    norm_num at this
  ⟨⟨huA, (cast4_boundaries_inclusive (planeRay (-1) (-1) 0 100) scenarioBatch 0).1
      (Or.inl huA)⟩,
    ⟨huB, (cast4_boundaries_inclusive (planeRay 1 (-1) (-5) 100) scenarioBatch 0).1
      (Or.inr huB)⟩,
    ⟨hvA, (cast4_boundaries_inclusive (planeRay (-1) (-1) 0 100) scenarioBatch 0).2.1 hvA⟩,
    ⟨huvB, (cast4_boundaries_inclusive (planeRay 1 (-1) (-5) 100) scenarioBatch 0).2.2.1
      huvB⟩,
    ⟨htA, (cast4_boundaries_inclusive (planeRay (-1) (-1) 0 100) scenarioBatch 0).2.2.2.1
      htA⟩,
    hfA, hfB⟩

/-! ## C16: the guarded division -/

/-- On a call with a defined result, that is, when the scan assigned `hitIndex`: when the
lanes of the batch hold the `p1`, `e1`, `e2` of the elements of the triangle array and
`cast4` returns 1, the intersection it writes is `origin + t*direction` with `t` the new
`t` of the ray. -/
theorem cast4_hit_point_on_ray (_tri : Fin 4 → Triangle) (r : Ray) (tri : Tri_4)
    (res : Cast4Result) (hsame : ∀ i, extractTriangle tri i = _tri i)
    (h : cast4 _tri r tri = some res) (h1 : res.status = 1) :
    res.ray.intersection =
      { x := r.origin.x + res.ray.t * r.ray.x
        y := r.origin.y + res.ray.t * r.ray.y
        z := r.origin.z + res.ray.t * r.ray.z } := by
  rcases cast4_result_cases _tri r tri res h with
    ⟨_, _, _, hst⟩ | ⟨w, hw, _, _, _, ⟨_, hres⟩ | ⟨_, hres⟩⟩
  · rw [h1] at hst
    exact absurd hst (by decide)
  · subst hres
    simp at h1
  · subst hres
    obtain ⟨hx, hy, hz⟩ := lane_point_on_ray r tri w ((survives_iff r tri w).1 hw).1
    simp only [cast4_accept, addInPlace, add, scaleNewVec, spu_extract_eq, lane_val,
      ← hsame w, extractTriangle, Vec.mk.injEq]
    refine ⟨?_, ?_, ?_⟩
    · rw [hx]
      ring
    · rw [hy]
      ring
    · rw [hz]
      ring

/-! ## C18 and C19: a second call, and what a call may change -/

/-- C19: whatever status a call returns, the ray after it has a `t` no larger in absolute
value than before, and the origin and direction it had before. -/
theorem cast4_best_distance_never_grows (_tri : Fin 4 → Triangle) (r : Ray) (tri : Tri_4)
    (res : Cast4Result) (h : cast4 _tri r tri = some res) :
    |res.ray.t| ≤ |r.t| ∧ res.ray.origin = r.origin ∧ res.ray.ray = r.ray := by
  rcases cast4_result_cases _tri r tri res h with
    ⟨_, hr, _, _⟩ | ⟨w, _, _, _, _, ⟨_, hres⟩ | ⟨hle, hres⟩⟩
  · rw [hr]
    exact ⟨le_refl _, rfl, rfl⟩
  · subst hres
    exact ⟨le_refl _, rfl, rfl⟩
  · subst hres
    exact ⟨not_lt.1 hle, rfl, rfl⟩

/-- C19 at a concrete call: the scenario with best distance 100 ends with `t = 5`. -/
theorem cast4_best_distance_never_grows_witness :
    cast4 scenarioTris (axisRay 5 100) scenarioBatch = some ⟨1, axisRayHit 5 100, false⟩ ∧
      |(⟨1, axisRayHit 5 100, false⟩ : Cast4Result).ray.t| ≤ |(axisRay 5 100).t| ∧
      (⟨1, axisRayHit 5 100, false⟩ : Cast4Result).ray.origin = (axisRay 5 100).origin ∧
      (⟨1, axisRayHit 5 100, false⟩ : Cast4Result).ray.ray = (axisRay 5 100).ray :=
  have hc := axisRay_cast4_hit 5 100 (by norm_num) (by norm_num) (by norm_num)
  ⟨hc, cast4_best_distance_never_grows scenarioTris (axisRay 5 100) scenarioBatch
    ⟨1, axisRayHit 5 100, false⟩ hc⟩

/-! ## cast4 run on past an unassigned hitIndex -/

/-- With a lane whose failure bit is clear, the run-on call is lines 126-152 on the pair
the scan leaves, the unassigned index read as `g`. -/
theorem cast4_runOn_of_survivor (g : Nat) (_tri : Fin 4 → Triangle) (r : Ray) (tri : Tri_4)
    (h : ∃ i, Survives r tri i) :
    cast4_runOn g _tri r tri =
      if h : (cast4_scan (cast4_fail r tri) (cast4_t r tri)).2.getD g < 4 then
        if |(cast4_scan (cast4_fail r tri) (cast4_t r tri)).1| > |r.t| then
          some ⟨2, r, decide (spu_extract (cast4_fail r tri)
            ((cast4_scan (cast4_fail r tri) (cast4_t r tri)).2.getD g) = allOnes)⟩
        else
          some ⟨1, cast4_accept r
            (_tri ⟨(cast4_scan (cast4_fail r tri) (cast4_t r tri)).2.getD g, h⟩)
            (cast4_u r tri) (cast4_v r tri)
            ((cast4_scan (cast4_fail r tri) (cast4_t r tri)).2.getD g)
            (cast4_scan (cast4_fail r tri) (cast4_t r tri)).1,
            decide (spu_extract (cast4_fail r tri)
              ((cast4_scan (cast4_fail r tri) (cast4_t r tri)).2.getD g) = allOnes)⟩
      else none := by
  obtain ⟨i, hi⟩ := h
  rw [survives_iff] at hi
  have hC : ¬ ∀ i, (FailsDet r tri i ∨ FailsU r tri i) ∨ FailsV r tri i :=
    fun h => by have := h i; tauto
  have hB : ¬ ∀ i, FailsDet r tri i ∨ FailsU r tri i := fun h => hC (fun i => Or.inl (h i))
  have hA : ¬ ∀ i, FailsDet r tri i := fun h => hB (fun i => Or.inl (h i))
  have hg : spu_extract (spu_gather (cast4_fail r tri)) 0 ≠ 15 := by
    rw [gather_fail_ne_15]
    exact ⟨i, (survives_iff r tri i).2 hi⟩
  unfold cast4_runOn
  rw [if_neg (by rw [failA_eq, gather_maskOf]; exact hA),
    if_neg (by rw [failB_eq, gather_maskOf]; exact hB),
    if_neg (by rw [failC_eq, gather_maskOf]; exact hC)]
  simp only [hg, ne_eq, not_false_eq_true, if_true, cast4_select_eq_scan]

/-- Wherever `cast4` has a result, the run-on call has the same one, whatever `g`. -/
theorem cast4_runOn_eq_of_some (g : Nat) (_tri : Fin 4 → Triangle) (r : Ray) (tri : Tri_4)
    (res : Cast4Result) (h : cast4 _tri r tri = some res) :
    cast4_runOn g _tri r tri = some res := by
  by_cases hs : ∃ i, Survives r tri i
  · rw [cast4_runOn_of_survivor g _tri r tri hs]
    rcases cast4_survivor_cases _tri r tri hs with ⟨_, hn⟩ | ⟨w, hw, _, _, hscan, hc⟩
    · rw [hn] at h
      exact absurd h (by simp)
    · rw [← h, hc, hscan]
      have hp : decide (spu_extract (cast4_fail r tri) w.val = allOnes) = false := by
        rw [spu_extract_eq, lane_val]
        exact decide_eq_false ((fail_ne_allOnes_iff r tri w).2 hw)
      simp only [Option.getD_some, w.isLt, dite_true, hp]
  · obtain ⟨s, hc, _⟩ := cast4_of_no_survivor _tri r tri hs
    rw [← h, hc]
    have hD : ∀ i, ((FailsDet r tri i ∨ FailsU r tri i) ∨ FailsV r tri i) ∨ FailsT r tri i := by
      intro i
      by_contra hcon
      exact hs ⟨i, (survives_iff r tri i).2 (by tauto)⟩
    have hg : spu_extract (spu_gather (cast4_fail r tri)) 0 = 15 := by
      rw [fail_eq, gather_maskOf]
      exact hD
    unfold cast4 at hc
    unfold cast4_runOn
    simp only [hg, ne_eq, not_true_eq_false, if_false] at hc ⊢
    exact hc

/-- The run-on call at a far hit of the scenario, the unassigned index read as a word `g`
in 0..3: line 138 compares 3487534 with the best distance, and when that is not exceeded
lines 140-152 run on `_tri[g]` with `hitT = 3487534`. -/
theorem axisRay_runOn_far (g : Fin 4) (d best : ℚ) (hd1 : 3487534 ≤ d)
    (hb : ¬ |(3487534 : ℚ)| > |best|) :
    cast4_runOn g.val scenarioTris (axisRay d best) scenarioBatch =
      some ⟨1, cast4_accept (axisRay d best) (scenarioTris g)
        (cast4_u (axisRay d best) scenarioBatch) (cast4_v (axisRay d best) scenarioBatch)
        g.val 3487534,
        decide (spu_extract (cast4_fail (axisRay d best) scenarioBatch) g.val = allOnes)⟩ := by
  have hs := scenario_survives (axisRay d best) scenarioBatch d rfl rfl
    scenarioTris_lane0 scenarioTris_zeroArea
  have hd0 : 0 ≤ d := le_trans (by norm_num) hd1
  rw [cast4_runOn_of_survivor g.val scenarioTris _ scenarioBatch ⟨0, (hs 0).2 ⟨rfl, hd0⟩⟩,
    axisRay_scan_far d best hd1]
  have hb2 : ¬ |(3487534 : ℚ)| > |(axisRay d best).t| := hb
  simp only [Option.getD_none, g.isLt, dite_true, if_neg hb2]

theorem scenarioBatch_t_degenerate (r : Ray) (i : Fin 4) (hi : i ≠ 0) :
    cast4_t r scenarioBatch i = 0 := by
  fin_cases i
  · exact absurd rfl hi
  all_goals
    simp [cast4_t, spu_mul, dot4, scenarioBatch, packTri_4, scenarioTris, pointTriangle]

/-- The run-on call at a far hit of the scenario, field by field: status 1, `t = 3487534`,
the point (0,0,0) computed from `_tri[g]`, and `itri = &_tri[g]`. -/
theorem axisRay_runOn_far_fields (g : Fin 4) (d best : ℚ) (hd1 : 3487534 ≤ d)
    (hb : ¬ |(3487534 : ℚ)| > |best|) :
    ∃ res, cast4_runOn g.val scenarioTris (axisRay d best) scenarioBatch = some res ∧
      res.status = 1 ∧ res.ray.t = 3487534 ∧
      res.ray.intersection = { x := 0, y := 0, z := 0 } ∧ res.ray.itri = some g.val ∧
      res.ray.origin = (axisRay d best).origin ∧ res.ray.ray = (axisRay d best).ray := by
  obtain ⟨_, hu, hv, _⟩ := scenario_lane0 (axisRay d best) scenarioBatch d rfl rfl
    scenarioTris_lane0
  refine ⟨_, axisRay_runOn_far g d best hd1 hb, rfl, rfl, ?_, rfl, rfl, rfl⟩
  fin_cases g
  · simp only [cast4_accept, spu_extract_eq, lane, Nat.zero_mod, Fin.zero_eta, hu, hv,
      scaleNewVec, add, addInPlace]
    norm_num [scenarioTris, scenarioTriangle]
  all_goals
    simp [cast4_accept, scaleNewVec, add, addInPlace, scenarioTris, pointTriangle]

/-! ## C2: what status 1 writes -/

/-- C2, the code at the failing input: the scenario ray started 4000000 away from the
triangle, best distance 10000000.  The lane distances are 4000000, 0, 0, 0 and only lane
0 has failure bit zero; the scan leaves `hitIndex` unassigned and `hitT` at 3487534, so
`cast4` has no defined result.  Run on with the unassigned index read as any of 0..3, the
call returns 1 and sets the ray's `t` to 3487534, which is the hit distance of no lane. -/
theorem cast4_status_one_with_no_lane_distance :
    cast4 scenarioTris (axisRay 4000000 10000000) scenarioBatch = none ∧
      (∀ g : Fin 4, ∃ res,
        cast4_runOn g.val scenarioTris (axisRay 4000000 10000000) scenarioBatch = some res ∧
          res.status = 1 ∧ res.ray.t = 3487534 ∧ res.ray.itri = some g.val) ∧
      cast4_t (axisRay 4000000 10000000) scenarioBatch 0 = 4000000 ∧
      (∀ i, i ≠ 0 → cast4_t (axisRay 4000000 10000000) scenarioBatch i = 0) ∧
      (∀ i, cast4_t (axisRay 4000000 10000000) scenarioBatch i ≠ 3487534) := by
  have ht0 := (scenario_lane0 (axisRay 4000000 10000000) scenarioBatch 4000000 rfl rfl
    scenarioTris_lane0).2.2.2
  refine ⟨axisRay_cast4_far 4000000 10000000 (by norm_num), fun g => ?_, ht0,
    fun i hi => scenarioBatch_t_degenerate _ i hi, fun i => ?_⟩
  · obtain ⟨res, hres, hst, ht, _, hitri, _⟩ :=
      axisRay_runOn_far_fields g 4000000 10000000 (by norm_num) (by norm_num)
    exact ⟨res, hres, hst, ht, hitri⟩
  · by_cases hi : i = 0
    · subst hi
      rw [ht0]
      norm_num
    · rw [scenarioBatch_t_degenerate _ i hi]
      norm_num

/-! ## C17: the accepted point and the ray -/

/-- C17, the code at the failing input: the scenario ray started 4000000 away from the
triangle, best distance 10000000, the batch holding the triangle array.  `cast4` has no
defined result; run on with the unassigned index read as any of 0..3, the call returns 1,
sets `t` to 3487534 and writes the point (0,0,0), while `origin + t*direction` is
(0,0,-512466). -/
theorem cast4_far_hit_point_off_ray :
    (∀ i, extractTriangle scenarioBatch i = scenarioTris i) ∧
      cast4 scenarioTris (axisRay 4000000 10000000) scenarioBatch = none ∧
      (∀ g : Fin 4, ∃ res,
        cast4_runOn g.val scenarioTris (axisRay 4000000 10000000) scenarioBatch = some res ∧
          res.status = 1 ∧ res.ray.t = 3487534 ∧
          res.ray.intersection = { x := 0, y := 0, z := 0 } ∧
          ({ x := (axisRay 4000000 10000000).origin.x
                + res.ray.t * (axisRay 4000000 10000000).ray.x
             y := (axisRay 4000000 10000000).origin.y
                + res.ray.t * (axisRay 4000000 10000000).ray.y
             z := (axisRay 4000000 10000000).origin.z
                + res.ray.t * (axisRay 4000000 10000000).ray.z } : Vec)
            = { x := 0, y := 0, z := -512466 } ∧
          res.ray.intersection ≠
            { x := (axisRay 4000000 10000000).origin.x
                + res.ray.t * (axisRay 4000000 10000000).ray.x
              y := (axisRay 4000000 10000000).origin.y
                + res.ray.t * (axisRay 4000000 10000000).ray.y
              z := (axisRay 4000000 10000000).origin.z
                + res.ray.t * (axisRay 4000000 10000000).ray.z }) := by
  refine ⟨fun _ => rfl, axisRay_cast4_far 4000000 10000000 (by norm_num), fun g => ?_⟩
  obtain ⟨res, hres, hst, ht, hint, _, _, _⟩ :=
    axisRay_runOn_far_fields g 4000000 10000000 (by norm_num) (by norm_num)
  have hpt : ({ x := (axisRay 4000000 10000000).origin.x
                + res.ray.t * (axisRay 4000000 10000000).ray.x
                y := (axisRay 4000000 10000000).origin.y
                + res.ray.t * (axisRay 4000000 10000000).ray.y
                z := (axisRay 4000000 10000000).origin.z
                + res.ray.t * (axisRay 4000000 10000000).ray.z } : Vec)
      = { x := 0, y := 0, z := -512466 } := by
    rw [ht]
    norm_num [axisRay]
  refine ⟨res, hres, hst, ht, hint, hpt, ?_⟩
  rw [hint, hpt]
  intro h
  have := congrArg Vec.z h
  norm_num at this

/-! ## C6: which hits line 138 accepts -/

/-- C6 as amended: when the nearest valid hit distance `T` is below 3487534, `cast4`
returns 1 exactly when `T` is not larger than the absolute value of the ray's `t` before
the call, an equal distance included, and the ray is then rewritten for a lane at distance
`T` with `t = T`; it returns 2 exactly when `T` is strictly larger, and the ray is then as
before. -/
theorem cast4_accepts_iff_not_farther (_tri : Fin 4 → Triangle) (r : Ray) (tri : Tri_4)
    (T : ℚ) (hT : IsNearestHit r tri T) (hcap : T < 3487534) :
    (Returns _tri r tri 1 ↔ T ≤ |r.t|) ∧
    (Returns _tri r tri 2 ↔ |r.t| < T) ∧
    (T ≤ |r.t| → ∃ w : Fin 4, Survives r tri w ∧ cast4_t r tri w = T ∧
      cast4 _tri r tri = some ⟨1,
        cast4_accept r (_tri w) (cast4_u r tri) (cast4_v r tri) w.val T, false⟩ ∧
      (cast4_accept r (_tri w) (cast4_u r tri) (cast4_v r tri) w.val T).t = T ∧
      (cast4_accept r (_tri w) (cast4_u r tri) (cast4_v r tri) w.val T).itri = some w.val) ∧
    (|r.t| < T → cast4 _tri r tri = some ⟨2, r, false⟩) := by
  obtain ⟨w, hw, hwT, hc⟩ := cast4_of_nearest _tri r tri T hT hcap
  rw [abs_of_nonneg (nearest_nonneg r tri T hT)] at hc
  have h1 : T ≤ |r.t| → cast4 _tri r tri = some ⟨1,
      cast4_accept r (_tri w) (cast4_u r tri) (cast4_v r tri) w.val T, false⟩ := by
    intro hle
    rw [hc, if_neg (not_lt.2 hle)]
  have h2 : |r.t| < T → cast4 _tri r tri = some ⟨2, r, false⟩ := by
    intro hlt
    rw [hc, if_pos hlt]
  refine ⟨⟨fun hret => ?_, fun hle => ⟨_, h1 hle, rfl⟩⟩,
    ⟨fun hret => ?_, fun hlt => ⟨_, h2 hlt, rfl⟩⟩,
    fun hle => ⟨w, hw, hwT, h1 hle, rfl, rfl⟩, h2⟩
  · by_contra hcon
    exact absurd (returns_of_eq (h2 (not_le.1 hcon)) hret) (by decide)
  · by_contra hcon
    exact absurd (returns_of_eq (h1 (not_lt.1 hcon)) hret) (by decide)

/-- C6 as amended, at concrete calls: best distance 5 and the hit at 5 gives status 1 and
the ray rewritten with `t = 5`; best distance 4 and the hit at 5 gives status 2 and the
ray as before. -/
theorem cast4_accepts_iff_not_farther_witness :
    (IsNearestHit (axisRay 5 5) scenarioBatch 5 ∧ (5 : ℚ) < 3487534 ∧
      (5 : ℚ) ≤ |(axisRay 5 5).t| ∧
      Returns scenarioTris (axisRay 5 5) scenarioBatch 1 ∧
      ∃ w : Fin 4, Survives (axisRay 5 5) scenarioBatch w ∧
        cast4_t (axisRay 5 5) scenarioBatch w = 5 ∧
        cast4 scenarioTris (axisRay 5 5) scenarioBatch = some ⟨1,
          cast4_accept (axisRay 5 5) (scenarioTris w) (cast4_u (axisRay 5 5) scenarioBatch)
            (cast4_v (axisRay 5 5) scenarioBatch) w.val 5, false⟩ ∧
        (cast4_accept (axisRay 5 5) (scenarioTris w) (cast4_u (axisRay 5 5) scenarioBatch)
          (cast4_v (axisRay 5 5) scenarioBatch) w.val 5).t = 5 ∧
        (cast4_accept (axisRay 5 5) (scenarioTris w) (cast4_u (axisRay 5 5) scenarioBatch)
          (cast4_v (axisRay 5 5) scenarioBatch) w.val 5).itri = some w.val) ∧
    (IsNearestHit (axisRay 5 4) scenarioBatch 5 ∧ (5 : ℚ) < 3487534 ∧
      |(axisRay 5 4).t| < 5 ∧
      Returns scenarioTris (axisRay 5 4) scenarioBatch 2 ∧
      cast4 scenarioTris (axisRay 5 4) scenarioBatch = some ⟨2, axisRay 5 4, false⟩) :=
  have hn5 := scenario_nearest 5 5 (by norm_num)
  have hn4 := scenario_nearest 5 4 (by norm_num)
  have hle : (5 : ℚ) ≤ |(axisRay 5 5).t| := by norm_num [axisRay]
  have hlt : |(axisRay 5 4).t| < 5 := by norm_num [axisRay]
  have t5 := cast4_accepts_iff_not_farther scenarioTris (axisRay 5 5) scenarioBatch 5 hn5
    (by norm_num)
  have t4 := cast4_accepts_iff_not_farther scenarioTris (axisRay 5 4) scenarioBatch 5 hn4
    (by norm_num)
  ⟨⟨hn5, by norm_num, hle, t5.1.2 hle, t5.2.2.1 hle⟩,
    hn4, by norm_num, hlt, t4.2.1.2 hlt, t4.2.2.2 hlt⟩

/-! ## C11: the bit-counting arm against the linear scan -/

/-- The selection of lines 103-133 is the linear scan when `valid != 3` and the
bit-counting arm otherwise. -/
theorem cast4_select_eq_arms (fail : VecU) (t : VecF) (gather : Nat) :
    cast4_select fail t gather =
      if cast4_valid gather ≠ 3 then cast4_scan fail t else cast4_bitCount t gather :=
  rfl

end Vec4Intersection
